import Mathlib

/-!
Verification development for `scripts/blender/extract_anatomy.py`, the
Z-Anatomy model extractor.  The script runs inside Blender; we shallowly
embed the slice of Blender's scene-graph state that the script reads and
writes: objects (with mesh data, modifiers, transforms), collections,
object/collection membership, the log stream, and the file-system effects
(directory creation, GLB export).  Host geometry operators (primitive
creation, decimate-collapse, bounding boxes) are modelled by explicit
deterministic functions, noted where they occur.  Machine floats of the
source are modelled by `ℚ` (the script only forms ratios and sums of
coordinates).  Exceptions raised by host operators are modelled by a fault
oracle injected at the statement boundaries of `main`'s `try:` block.
-/

namespace ExtractAnatomy

/-- A 3-vector of rationals, modelling a Blender location / scale vector. -/
structure V3 where
  x : ℚ
  y : ℚ
  z : ℚ
deriving DecidableEq, Repr

/-- One entry of an object's modifier stack.  Field names follow the
source (`mod.decimate_type`, `mod.ratio`, `mod.use_collapse_triangulate`);
`ratioQ` holds the float ratio as a rational. -/
structure Modifier where
  name : String
  modType : String
  decimateType : String
  ratioQ : ℚ
  useCollapseTriangulate : Bool
deriving DecidableEq, Repr

/-- Mesh datablock: materials, UV layers, vertex-color layers, shape keys
and the (base) loop-triangle count of the geometry. -/
structure MeshData where
  name : String
  materials : List String
  uvLayers : List String
  vertexColors : List String
  hasShapeKeys : Bool
  tris : Nat
deriving DecidableEq, Repr

/-- A Blender object.  `oid` is the identity of the host handle,
`bboxCenter` / `bboxMinZ` model the world-space bounding box of the
object's evaluated geometry, `appliedMods` records the modifiers the
script baked into the mesh with `modifier_apply`. -/
structure BObject where
  oid : Nat
  name : String
  objType : String
  data : MeshData
  location : V3
  scale : V3
  bboxCenter : V3
  bboxMinZ : ℚ
  modifiers : List Modifier
  appliedMods : List Modifier
deriving DecidableEq, Repr

/-- A collection (child of the scene collection); members by object id. -/
structure Collection where
  cid : Nat
  name : String
  objectIds : List Nat
deriving DecidableEq, Repr

/-- The scene data the script touches: `bpy.data.objects`, the scene root
collection's members (`bpy.context.collection`, where fresh objects are
linked), the child collections, and a fresh-id counter for new handles. -/
structure Scene where
  objects : List BObject
  rootObjects : List Nat
  collections : List Collection
  nextId : Nat
deriving DecidableEq, Repr

/-- A log line: `log(message, level)` prints `[level] message`;
`traceback` models `traceback.print_exc()` for the given exception. -/
inductive LogEntry where
  | msg (level text : String)
  | traceback (err : String)
deriving DecidableEq, Repr

/-- The name, type and location of one object as written into a GLB. -/
structure GlbObj where
  name : String
  objType : String
  location : V3
deriving DecidableEq, Repr

/-- File-system effects of a run: `output_path.mkdir(parents=True)` and
`bpy.ops.export_scene.gltf` on the selected (collection) objects. -/
inductive Effect where
  | mkdirP (dir : String)
  | exportGlb (path : String) (objs : List GlbObj)
deriving DecidableEq, Repr

/-- Whole interpreter state threaded through the script: the scene plus
the observable log and file-system effect streams. -/
structure St where
  scene : Scene
  log : List LogEntry
  effects : List Effect
deriving DecidableEq, Repr

/-- Result of one run of `main`: the process exit code and final state. -/
structure MainResult where
  exitCode : Nat
  st : St
deriving DecidableEq, Repr

/-! ### Configuration constants (from the source) -/

/-- MESH_PATTERNS: search patterns per output mesh name. -/
def MESH_PATTERNS : List (String × List String) :=
  [("Body", ["skin", "peau", "body", "corps", "integument", "epiderm",
             "dermis", "cutaneous"]),
   ("Veins", ["vein", "veine", "artery", "artère", "artere", "vessel",
              "vaisseau", "circulat", "blood", "sang", "aorta", "aorte",
              "vascular", "cardiovascular"]),
   ("Brain", ["brain", "cerveau", "cerebr", "encephal", "cortex",
              "cerebellum", "cervelet", "neural"]),
   ("Heart", ["heart", "coeur", "cœur", "cardiac", "cardiaque",
              "ventricle", "ventricul", "atrium", "auricle"])]

/-- TARGET_TRIANGLES: decimation target per mesh name. -/
def TARGET_TRIANGLES : List (String × Nat) :=
  [("Body", 20000), ("Veins", 30000), ("Brain", 15000), ("Heart", 10000)]

/-- TARGET_TRIANGLES.get(name, 20000), as used by `process_meshes`. -/
def lookupTarget (nm : String) : Nat :=
  (TARGET_TRIANGLES.lookup nm).getD 20000

/-- POSE_TRANSFORMS: per-pose bone rotations.  Angles are kept in degrees
(the source stores `math.radians` of these values; the conversion is a
fixed positive scalar, irrelevant to every property proved here). -/
def POSE_TRANSFORMS : List (String × List (String × V3)) :=
  [("open", [("shoulder_l", ⟨0, 0, -80⟩), ("shoulder_r", ⟨0, 0, 80⟩),
             ("arm_l", ⟨0, 0, 0⟩), ("arm_r", ⟨0, 0, 0⟩)]),
   ("closed", [("shoulder_l", ⟨0, 0, -10⟩), ("shoulder_r", ⟨0, 0, 10⟩),
               ("arm_l", ⟨0, 0, 0⟩), ("arm_r", ⟨0, 0, 0⟩)])]

/-! ### Utility functions -/

/-- Does `pat` occur at the start of `hay`? (on character lists). -/
def charsPrefix : List Char → List Char → Bool
  | [], _ => true
  | _ :: _, [] => false
  | a :: as, b :: bs => a == b && charsPrefix as bs

/-- Does `pat` occur anywhere inside `hay`? (on character lists). -/
def charsContains (hay pat : List Char) : Bool :=
  match hay with
  | [] => pat.isEmpty
  | _ :: t => charsPrefix pat hay || charsContains t pat

/-- A string lowercased (`str.lower()`, modelled per character) as a
character list. -/
def lowerChars (s : String) : List Char :=
  s.toList.map Char.toLower

/-- Python's `pattern.lower() in name.lower()`: substring containment of
the lowercased pattern in the lowercased name. -/
def containsSub (hay pat : String) : Bool :=
  charsContains (lowerChars hay) (lowerChars pat)

/-- Python's `name.startswith(pre)` (exact case), on character lists. -/
def nameStarts (pre nm : String) : Bool :=
  charsPrefix pre.toList nm.toList

/-- The identity of a collection as the script addresses it: its handle
and its name (its member list mutates during a run). -/
def collKey (c : Collection) : Nat × String :=
  (c.cid, c.name)

/-- The per-object test of `find_meshes_by_pattern`'s loop: the object is
a MESH and its lowercased name contains some lowercased pattern. -/
def matchesAny (patterns : List String) (o : BObject) : Bool :=
  o.objType == "MESH" && patterns.any (fun p => containsSub o.name p)

/-- find_meshes_by_pattern: all mesh objects whose lowercased name
contains one of the patterns (each object appended at most once, at its
first matching pattern — i.e. a filter of `bpy.data.objects`). -/
def find_meshes_by_pattern (s : Scene) (patterns : List String) :
    List BObject :=
  s.objects.filter (matchesAny patterns)

/-- Effect of one modifier on the evaluated triangle count.  The
decimate-collapse operator is host geometry; it is modelled as reducing
the count to `floor(ratio * tris)`. -/
def hostModifierTris (m : Modifier) (tris : Nat) : Nat :=
  if m.modType == "DECIMATE" && m.decimateType == "COLLAPSE" then
    ((m.ratioQ * tris : ℚ).floor).toNat
  else tris

/-- Triangle count of the evaluated mesh (modifier stack applied). -/
def evalTris (tris : Nat) : List Modifier → Nat
  | [] => tris
  | m :: rest => evalTris (hostModifierTris m tris) rest

/-- get_mesh_triangle_count: 0 for non-mesh objects, else the evaluated
(`evaluated_depsgraph_get`) triangle count. -/
def get_mesh_triangle_count (o : BObject) : Nat :=
  if o.objType == "MESH" then evalTris o.data.tris o.modifiers else 0

/-- duplicate_object: copy the mesh datablock under a new name, make a
new object for it (fresh handle, empty modifier stack), copy the world
matrix, link it to the context (scene root) collection.  The host may
uniquify a clashing name; the model keeps the name the source passes. -/
def duplicate_object (s : Scene) (obj : BObject) (nm : String) :
    BObject × Scene :=
  let newObj : BObject :=
    { oid := s.nextId, name := nm, objType := "MESH",
      data := { obj.data with name := nm },
      location := obj.location, scale := obj.scale,
      bboxCenter := obj.bboxCenter, bboxMinZ := obj.bboxMinZ,
      modifiers := [], appliedMods := [] }
  (newObj,
   { s with objects := s.objects ++ [newObj],
            rootObjects := s.rootObjects ++ [newObj.oid],
            nextId := s.nextId + 1 })

/-- Remove an object handle from the scene (`bpy.data.objects.remove`
with `do_unlink=True`): drop it from the object table, the root
collection and every child collection. -/
def removeObject (s : Scene) (i : Nat) : Scene :=
  { s with objects := s.objects.filter (fun o => o.oid != i),
           rootObjects := s.rootObjects.filter (fun j => j != i),
           collections := s.collections.map
             (fun c => { c with objectIds := c.objectIds.filter (fun j => j != i) }) }

/-- In-place mutation of the object with id `i` (Python objects are
references into the scene; attribute writes update the scene table). -/
def updateObject (s : Scene) (i : Nat) (newObj : BObject) : Scene :=
  { s with objects := s.objects.map (fun o => if o.oid == i then newObj else o) }

/-- Unlink object `i` from every collection containing it
(`for coll in new_obj.users_collection: coll.objects.unlink(new_obj)`). -/
def unlinkFromAll (s : Scene) (i : Nat) : Scene :=
  { s with rootObjects := s.rootObjects.filter (fun j => j != i),
           collections := s.collections.map
             (fun c => { c with objectIds := c.objectIds.filter (fun j => j != i) }) }

/-- Link object `i` into the collection with id `cid`. -/
def linkToColl (s : Scene) (cid : Nat) (i : Nat) : Scene :=
  { s with collections := s.collections.map
             (fun c => if c.cid == cid then { c with objectIds := c.objectIds ++ [i] }
                       else c) }

/-- First object with the given id. -/
def findObj (s : Scene) (i : Nat) : Option BObject :=
  s.objects.find? (fun o => o.oid == i)

/-- First collection with the given id. -/
def findColl (s : Scene) (i : Nat) : Option Collection :=
  s.collections.find? (fun c => c.cid == i)

/-- One iteration of the duplication loop of `join_meshes`. -/
def dupStep (nm : String) (acc : List BObject × Scene) (o : BObject) :
    List BObject × Scene :=
  let p := duplicate_object acc.2 o nm
  (acc.1 ++ [p.1], p.2)

/-- The duplication loop of `join_meshes`: duplicate every object under
the given name, collecting the duplicates in order. -/
def dupAll (s : Scene) (objs : List BObject) (nm : String) :
    List BObject × Scene :=
  objs.foldl (dupStep nm) ([], s)

/-- Mesh datablock of the join result (`bpy.ops.object.join` merges the
selected duplicates into the active one; the host sums the geometry and
merges material slots — modelled as sum / concatenation). -/
def joinData (dups : List BObject) (active : BObject) : MeshData :=
  { active.data with
    tris := (dups.map (fun d => d.data.tris)).sum,
    materials := (dups.map (fun d => d.data.materials)).flatten }

/-- The join result: the active duplicate with the merged datablock,
renamed (both object and datablock) to the target name. -/
def joinedOf (active : BObject) (dups : List BObject) (nm : String) : BObject :=
  { active with name := nm, data := { joinData dups active with name := nm } }

/-- The multi-object branch of `join_meshes`: duplicate every input as a
`_part` object, join the duplicates into the first one (the active
object) — the non-active duplicates disappear from the scene — and
rename the result. -/
def joinMany (s : Scene) (objs : List BObject) (nm : String) :
    Option BObject × Scene :=
  let dp := dupAll s objs (nm ++ "_part")
  match dp.1 with
  | [] => (none, dp.2)
  | active :: rest =>
    let joined := joinedOf active dp.1 nm
    let s2 := rest.foldl (fun st o => removeObject st o.oid) dp.2
    (some joined, updateObject s2 active.oid joined)

/-- join_meshes: `None` on an empty list; a single object is just
duplicated under the target name; two or more objects are joined via
duplicates of all of them. -/
def join_meshes (s : Scene) (objs : List BObject) (nm : String) :
    Option BObject × Scene :=
  match objs with
  | [] => (none, s)
  | [o] =>
    let p := duplicate_object s o nm
    (some p.1, p.2)
  | _ :: _ :: _ => joinMany s objs nm

/-- decimate_mesh: no-op (apart from a log line) when the evaluated
triangle count is already within the target; otherwise add a
decimate-collapse modifier with ratio `target / current` and apply it
(bake the evaluated mesh into the datablock and drop the modifier from
the stack, recording it in `appliedMods`). -/
def decimate_mesh (obj : BObject) (target : Nat) : BObject × List LogEntry :=
  let current := get_mesh_triangle_count obj
  if current ≤ target then
    (obj, [LogEntry.msg "INFO" ("  " ++ obj.name ++ ": " ++ toString current
                        ++ " tris (no decimation needed)")])
  else
    let m : Modifier :=
      { name := "Decimate", modType := "DECIMATE", decimateType := "COLLAPSE",
        ratioQ := (target : ℚ) / (current : ℚ), useCollapseTriangulate := true }
    let obj2 : BObject :=
      { obj with data := { obj.data with tris := hostModifierTris m obj.data.tris },
                 appliedMods := obj.appliedMods ++ [m] }
    (obj2, [LogEntry.msg "INFO" ("  " ++ obj.name ++ ": decimated")])

/-- apply_all_transforms (`transform_apply(location, rotation, scale)`):
bake the object transform into the mesh data.  World-space geometry (the
bounding box) is unchanged; location and scale reset to the identity. -/
def apply_all_transforms (obj : BObject) : BObject :=
  { obj with location := ⟨0, 0, 0⟩, scale := ⟨1, 1, 1⟩ }

/-- The `while layers: remove(layers[0])` loops of `cleanup_mesh`. -/
def clearAll : List String → List String
  | [] => []
  | _ :: t => clearAll t

/-- cleanup_mesh: clear materials, UV layers, vertex colors, shape keys. -/
def cleanup_mesh (obj : BObject) : BObject :=
  let mesh := obj.data
  let mesh1 := { mesh with materials := [] }
  let mesh2 := { mesh1 with uvLayers := clearAll mesh1.uvLayers }
  let mesh3 := { mesh2 with vertexColors := clearAll mesh2.vertexColors }
  let obj1 := { obj with data := mesh3 }
  if obj1.data.hasShapeKeys then
    { obj1 with data := { obj1.data with hasShapeKeys := false } }
  else obj1

/-- center_origin_to_floor: set the origin to the bounds center
(host `origin_set`; world geometry unchanged, the object location becomes
the bounds center), then shift the object down by the world-space bounding
box minimum so the bottom sits at Z=0. -/
def center_origin_to_floor (obj : BObject) : BObject :=
  let obj1 := { obj with location := obj.bboxCenter }
  let minZ := obj1.bboxMinZ
  { obj1 with location := { obj1.location with z := obj1.location.z - minZ },
              bboxCenter := { obj1.bboxCenter with z := obj1.bboxCenter.z - minZ },
              bboxMinZ := 0 }

/-- Modelled host primitives of `create_placeholder_mesh`: triangle
count, location, scale and bounding-box bottom of the sphere / cylinder /
cube the source asks Blender for, per mesh name. -/
def placeholderParams (nm : String) : Nat × V3 × V3 × ℚ :=
  if nm == "Body" then (1024, ⟨0, 0, 0⟩, ⟨3/10, 1/4, 4/5⟩, -(4/5))
  else if nm == "Heart" then (256, ⟨0, 0, 1/2⟩, ⟨1, 1, 1⟩, 2/5)
  else if nm == "Brain" then (576, ⟨0, 0, 9/10⟩, ⟨1, 1, 1⟩, 3/4)
  else if nm == "Veins" then (128, ⟨0, 0, 0⟩, ⟨1, 1, 1⟩, -(1/2))
  else (12, ⟨0, 0, 0⟩, ⟨1, 1, 1⟩, -(1/4))

/-- The fresh datablock of a placeholder primitive. -/
def placeholderData (nm : String) (tris : Nat) : MeshData :=
  { name := nm, materials := [], uvLayers := [], vertexColors := [],
    hasShapeKeys := false, tris := tris }

/-- create_placeholder_mesh: add a primitive (linked to the context
collection), rename object and datablock to `nm`, log a warning. -/
def create_placeholder_mesh (st : St) (nm : String) : BObject × St :=
  let p := placeholderParams nm
  let obj : BObject :=
    { oid := st.scene.nextId, name := nm, objType := "MESH",
      data := placeholderData nm p.1, location := p.2.1, scale := p.2.2.1,
      bboxCenter := p.2.1, bboxMinZ := p.2.2.2,
      modifiers := [], appliedMods := [] }
  (obj,
   { st with
     scene := { st.scene with objects := st.scene.objects ++ [obj],
                              rootObjects := st.scene.rootObjects ++ [obj.oid],
                              nextId := st.scene.nextId + 1 },
     log := st.log ++ [LogEntry.msg "WARN" ("  Created placeholder for " ++ nm)] })

/-- One iteration of `extract_anatomy_meshes`: search, then placeholder
(with a warning) or join of the found meshes. -/
def extractOne (st : St) (nm : String) (pats : List String) : BObject × St :=
  match find_meshes_by_pattern st.scene pats with
  | [] =>
    let st1 := { st with log := st.log ++
      [LogEntry.msg "WARN" ("  " ++ nm ++ ": NOT FOUND - will create placeholder")] }
    create_placeholder_mesh st1 nm
  | f :: fs =>
    let st1 := { st with log := st.log ++
      [LogEntry.msg "INFO" ("  " ++ nm ++ ": Found " ++ toString (f :: fs).length
                    ++ " matching objects")] }
    match join_meshes st1.scene (f :: fs) nm with
    | (some o, s') => (o, { st1 with scene := s' })
    | (none, s') => (f, { st1 with scene := s' })

/-- One iteration of the loop of `extract_anatomy_meshes`. -/
def extractStep (acc : List (String × BObject) × St)
    (kv : String × List String) : List (String × BObject) × St :=
  let p := extractOne acc.2 kv.1 kv.2
  (acc.1 ++ [(kv.1, p.1)], p.2)

/-- extract_anatomy_meshes: one extracted object per MESH_PATTERNS key,
in key order (Python dicts preserve insertion order). -/
def extract_anatomy_meshes (st : St) : List (String × BObject) × St :=
  let st0 := { st with log := st.log ++
    [LogEntry.msg "INFO" "Searching for anatomy meshes in Z-Anatomy..."] }
  MESH_PATTERNS.foldl extractStep ([], st0)

/-- One iteration of `process_meshes`: apply transforms, decimate toward
the per-name target, clean the datablock, re-apply transforms.  The
mutations land on the scene object with the same handle. -/
def processOne (st : St) (nm : String) (o : BObject) : BObject × St :=
  let o1 := apply_all_transforms o
  let dm := decimate_mesh o1 (lookupTarget nm)
  let o3 := cleanup_mesh dm.1
  let o4 := apply_all_transforms o3
  (o4, { st with scene := updateObject st.scene o.oid o4,
                 log := st.log ++ [LogEntry.msg "INFO" ("Processing " ++ nm ++ "...")]
                        ++ dm.2 })

/-- One iteration of the loop of `process_meshes`. -/
def processStep (acc : List (String × BObject) × St)
    (kv : String × BObject) : List (String × BObject) × St :=
  let p := processOne acc.2 kv.1 kv.2
  (acc.1 ++ [(kv.1, p.1)], p.2)

/-- process_meshes over the extracted mapping, preserving key order. -/
def process_meshes (st : St) (ms : List (String × BObject)) :
    List (String × BObject) × St :=
  ms.foldl processStep ([], st)

/-- One iteration of the centering loop of `main` (step 3). -/
def centerStep (acc : List (String × BObject) × St)
    (kv : String × BObject) : List (String × BObject) × St :=
  let o' := center_origin_to_floor kv.2
  (acc.1 ++ [(kv.1, o')],
   { acc.2 with scene := updateObject acc.2.scene kv.2.oid o' })

/-- Step 3 of `main`: center every extracted mesh at the origin. -/
def centerAll (st : St) (ms : List (String × BObject)) :
    List (String × BObject) × St :=
  ms.foldl centerStep ([], st)

/-- One iteration of the duplication loop of `create_pose_collection`:
duplicate the mesh under its dict-key name, unlink the duplicate from its
previous collections, link it into the pose collection. -/
def poseStep (cid : Nat) (acc : St) (kv : String × BObject) : St :=
  let p := duplicate_object acc.scene kv.2 kv.1
  let s1 := unlinkFromAll p.2 p.1.oid
  { acc with scene := linkToColl s1 cid p.1.oid }

/-- create_pose_collection: make a new `HumanLayer_` collection for the
pose, link it under the scene collection, and for each extracted mesh
link a duplicate (named after the dict key) into it.  The pose transforms
of POSE_TRANSFORMS are never applied (the source comment reads
"simplified - no armature"). -/
def create_pose_collection (st : St) (ms : List (String × BObject))
    (poseName : String) : Nat × St :=
  let s := st.scene
  let cid := s.nextId
  let coll : Collection := { cid := cid, name := "HumanLayer_" ++ poseName,
                             objectIds := [] }
  let st1 : St :=
    { st with scene := { s with collections := s.collections ++ [coll],
                                nextId := s.nextId + 1 },
              log := st.log ++ [LogEntry.msg "INFO"
                ("Creating " ++ poseName ++ " pose collection...")] }
  (cid, ms.foldl (poseStep cid) st1)

/-- Projection of an object into the exported GLB. -/
def glbProj (o : BObject) : GlbObj :=
  { name := o.name, objType := o.objType, location := o.location }

/-- The objects of a collection, resolved in the scene. -/
def objectsOfColl (s : Scene) (cid : Nat) : List BObject :=
  match findColl s cid with
  | none => []
  | some c => c.objectIds.filterMap (findObj s)

/-- export_collection_to_glb: select exactly the objects of the
collection and export them to the given path (`use_selection=True`). -/
def export_collection_to_glb (st : St) (cid : Nat) (path : String) : St :=
  { st with
    effects := st.effects ++
      [Effect.exportGlb path ((objectsOfColl st.scene cid).map glbProj)],
    log := st.log ++ [LogEntry.msg "INFO" ("Exporting to " ++ path ++ "..."),
                      .msg "INFO" ("  Exported: " ++ path)] }

/-- One iteration of `cleanup_scene`'s loop over the collection
snapshot: skip collections without the `HumanLayer_` name prefix; for the
others remove every member object, then the collection itself. -/
def cleanupStep (st : Scene) (c : Collection) : Scene :=
  if nameStarts "HumanLayer_" c.name then
    let st1 := c.objectIds.foldl removeObject st
    { st1 with collections := st1.collections.filter (fun c' => c'.cid != c.cid) }
  else st

/-- cleanup_scene: for every collection (snapshot) whose name starts with
"HumanLayer_", remove its member objects from the scene data and then
remove the collection itself. -/
def cleanup_scene (s : Scene) : Scene :=
  s.collections.foldl cleanupStep s

/-! ### Argument handling and main -/

/-- The suffix of `argv` after the first `"--"` separator (`[]` when no
separator is present), as computed by `argv[argv.index("--") + 1:]`. -/
def afterSep : List String → List String
  | [] => []
  | a :: rest => if a = "--" then rest else afterSep rest

/-- The `--output` scan of `main`: every occurrence of `"--output"` that
has a following element overwrites the output directory with it. -/
def parse_output_dir : List String → String → String
  | [], acc => acc
  | a :: rest, acc =>
    if a = "--output" then
      match rest with
      | [] => acc
      | v :: _ => parse_output_dir rest v
    else parse_output_dir rest acc

/-- The output directory `main` settles on for a given `sys.argv`. -/
def outputDirOf (argv : List String) : String :=
  parse_output_dir (afterSep argv) "public/models/human"

/-- `str(output_path / fileName)`. -/
def joinPath (dir fileName : String) : String := dir ++ "/" ++ fileName

/-- Fault oracle: `faultAt fault k` is the exception message the host
raises at the `k`-th statement of the `try:` block, if any. -/
def faultAt (fault : Option (Nat × String)) (k : Nat) : Option String :=
  match fault with
  | none => none
  | some jm => if jm.1 == k then some jm.2 else none

/-- The body of `main`'s `try:` block, steps 0-6: extract, process,
center, build the two pose collections, export the two GLB files.  On a
fault the exception message is returned together with the state at the
moment it is raised (Python state is not rolled back). -/
def tryBody (fault : Option (Nat × String)) (st0 : St) (outDir : String) :
    Except (String × St) St :=
  match faultAt fault 0 with
  | some m => .error (m, st0)
  | none =>
    let e1 := extract_anatomy_meshes st0
    match faultAt fault 1 with
    | some m => .error (m, e1.2)
    | none =>
      let e2 := process_meshes e1.2 e1.1
      match faultAt fault 2 with
      | some m => .error (m, e2.2)
      | none =>
        let e3 := centerAll e2.2 e2.1
        match faultAt fault 3 with
        | some m => .error (m, e3.2)
        | none =>
          let c1 := create_pose_collection e3.2 e3.1 "open"
          match faultAt fault 4 with
          | some m => .error (m, c1.2)
          | none =>
            let c2 := create_pose_collection c1.2 e3.1 "closed"
            match faultAt fault 5 with
            | some m => .error (m, c2.2)
            | none =>
              let st6 := export_collection_to_glb c2.2 c1.1
                           (joinPath outDir "pose-open.glb")
              match faultAt fault 6 with
              | some m => .error (m, st6)
              | none =>
                .ok (export_collection_to_glb st6 c2.1
                       (joinPath outDir "pose-closed.glb"))

/-- The 60-character "=" ruler `main` logs around its banner. -/
def rulerLine : String :=
  String.mk (List.replicate 60 (Char.ofNat 61))

/-- The state `main` builds before the `try:` block: start-up banner,
argument parsing, output-directory creation. -/
def initSt (argv : List String) (scene0 : Scene) : St :=
  { scene := scene0,
    log := [LogEntry.msg "INFO" rulerLine,
            .msg "INFO" "Z-Anatomy Model Extractor",
            .msg "INFO" rulerLine,
            .msg "INFO" ("Output directory: " ++ outputDirOf argv)],
    effects := [Effect.mkdirP (outputDirOf argv)] }

/-- Exit code and state of `main` just before the `finally:` cleanup:
0 after a clean body, 1 (via `sys.exit(1)`) after a caught exception,
which is first logged with its message and its traceback. -/
def mainPreCleanup (fault : Option (Nat × String)) (argv : List String)
    (scene0 : Scene) : Nat × St :=
  match tryBody fault (initSt argv scene0) (outputDirOf argv) with
  | .ok st2 =>
    (0, { st2 with log := st2.log ++ [LogEntry.msg "INFO" "Export complete!"] })
  | .error em =>
    (1, { em.2 with log := em.2.log ++
           [LogEntry.msg "ERROR" ("Error: " ++ em.1), LogEntry.traceback em.1] })

/-- One whole run of `main`: the `finally:` block runs `cleanup_scene`
on both the success and the failure path. -/
def mainRun (fault : Option (Nat × String)) (argv : List String)
    (scene0 : Scene) : MainResult :=
  let r := mainPreCleanup fault argv scene0
  { exitCode := r.1, st := { r.2 with scene := cleanup_scene r.2.scene } }

/-- The extracted-processed-centered meshes of a run (steps 0-2 of the
body, recomputed); the source objects both pose collections duplicate. -/
def finalMeshes (argv : List String) (scene0 : Scene) :
    List (String × BObject) :=
  let e1 := extract_anatomy_meshes (initSt argv scene0)
  let e2 := process_meshes e1.2 e1.1
  (centerAll e2.2 e2.1).1

/-- The GLB payload produced for a list of extracted meshes: one MESH
object per dict key, named after the key, at the source mesh's location. -/
def glbPayload (ms : List (String × BObject)) : List GlbObj :=
  ms.map (fun kv => { name := kv.1, objType := "MESH", location := kv.2.location })

/-! ### Well-formedness and demo scenes -/

/-- Every id mentioned in the scene is below the fresh-id counter — the
invariant Blender's handle allocation guarantees. -/
def IdsBelow (s : Scene) : Prop :=
  (∀ o ∈ s.objects, o.oid < s.nextId) ∧
  (∀ i ∈ s.rootObjects, i < s.nextId) ∧
  (∀ c ∈ s.collections, c.cid < s.nextId ∧ ∀ i ∈ c.objectIds, i < s.nextId)

instance (s : Scene) : Decidable (IdsBelow s) := by
  unfold IdsBelow; infer_instance

/-- Log entries `main`'s pipeline emits outside the `except:` branch. -/
def benignEntry : LogEntry → Bool
  | .msg lv _ => lv == "INFO" || lv == "WARN"
  | .traceback _ => false

/-- The pattern list MESH_PATTERNS assigns to a key. -/
def patternsFor (k : String) : List String :=
  (MESH_PATTERNS.lookup k).getD []

/-- The state at the end of the `try:` block — the result state on
success, the state at the raise on failure. -/
def tryOut : Except (String × St) St → St
  | .ok st => st
  | .error em => em.2

/-- An empty scene: every search comes up empty. -/
def emptyScene : Scene :=
  { objects := [], rootObjects := [], collections := [], nextId := 0 }

/-- A skin mesh matching the Body patterns, above the Body triangle
target so decimation fires. -/
def demoSkin : BObject :=
  { oid := 0, name := "Skin mesh", objType := "MESH",
    data := { name := "Skin mesh", materials := ["M"],
              uvLayers := ["UVMap"], vertexColors := [],
              hasShapeKeys := false, tris := 50000 },
    location := ⟨0, 0, 0⟩, scale := ⟨1, 1, 1⟩,
    bboxCenter := ⟨0, 0, 1⟩, bboxMinZ := -(1/2),
    modifiers := [], appliedMods := [] }

/-- A small scene with one skin mesh. -/
def demoScene : Scene :=
  { objects := [demoSkin], rootObjects := [0], collections := [], nextId := 1 }

/-- The Heart entry extracted from the empty scene (a placeholder). -/
def heartFromEmpty : BObject :=
  (((extract_anatomy_meshes ⟨emptyScene, [], []⟩).1).lookup "Heart").getD demoSkin

/-- The state entering the extraction loop (the search banner logged). -/
def exSt0 (st : St) : St :=
  { st with log := st.log ++
      [LogEntry.msg "INFO" "Searching for anatomy meshes in Z-Anatomy..."] }

/-- The four stages of the extraction loop, one per MESH_PATTERNS key. -/
def exR1 (st : St) : BObject × St :=
  extractOne (exSt0 st) "Body" (patternsFor "Body")

def exR2 (st : St) : BObject × St :=
  extractOne (exR1 st).2 "Veins" (patternsFor "Veins")

def exR3 (st : St) : BObject × St :=
  extractOne (exR2 st).2 "Brain" (patternsFor "Brain")

def exR4 (st : St) : BObject × St :=
  extractOne (exR3 st).2 "Heart" (patternsFor "Heart")

/-- The stages of a fault-free `try:` body, named for the proofs. -/
def bodyE1 (st0 : St) : List (String × BObject) × St :=
  extract_anatomy_meshes st0

def bodyE2 (st0 : St) : List (String × BObject) × St :=
  process_meshes (bodyE1 st0).2 (bodyE1 st0).1

def bodyE3 (st0 : St) : List (String × BObject) × St :=
  centerAll (bodyE2 st0).2 (bodyE2 st0).1

def bodyC1 (st0 : St) : Nat × St :=
  create_pose_collection (bodyE3 st0).2 (bodyE3 st0).1 "open"

def bodyC2 (st0 : St) : Nat × St :=
  create_pose_collection (bodyC1 st0).2 (bodyE3 st0).1 "closed"

def bodySt6 (st0 : St) (outDir : String) : St :=
  export_collection_to_glb (bodyC2 st0).2 (bodyC1 st0).1
    (joinPath outDir "pose-open.glb")

def bodySt7 (st0 : St) (outDir : String) : St :=
  export_collection_to_glb (bodySt6 st0 outDir) (bodyC2 st0).1
    (joinPath outDir "pose-closed.glb")

/-- A scene holding a pre-existing collection whose name already starts
with "HumanLayer_", containing a pre-existing object. -/
def preHLScene : Scene :=
  { objects := [{ oid := 1, name := "legacy rig", objType := "EMPTY",
                  data := { name := "legacy", materials := [], uvLayers := [],
                            vertexColors := [], hasShapeKeys := false, tris := 0 },
                  location := ⟨0, 0, 0⟩, scale := ⟨1, 1, 1⟩,
                  bboxCenter := ⟨0, 0, 0⟩, bboxMinZ := 0,
                  modifiers := [], appliedMods := [] }],
    rootObjects := [],
    collections := [{ cid := 0, name := "HumanLayer_old", objectIds := [1] }],
    nextId := 2 }

/-! ### List helper lemmas -/

theorem map_self_of {α : Type _} (l : List α) (f : α → α)
    (h : ∀ a ∈ l, f a = a) : l.map f = l := by
  induction l with
  | nil => rfl
  | cons a t ih =>
    simp only [List.map_cons, h a (List.mem_cons_self a t)]
    rw [ih (fun b hb => h b (List.mem_cons_of_mem a hb))]

theorem filter_self_of {α : Type _} (l : List α) (p : α → Bool)
    (h : ∀ a ∈ l, p a = true) : l.filter p = l := by
  induction l with
  | nil => rfl
  | cons a t ih =>
    simp only [List.filter_cons, h a (List.mem_cons_self a t), if_true]
    rw [ih (fun b hb => h b (List.mem_cons_of_mem a hb))]

theorem find?_append_some {α : Type _} {p : α → Bool} {l₁ : List α}
    (l₂ : List α) {x : α} (h : l₁.find? p = some x) :
    (l₁ ++ l₂).find? p = some x := by
  rw [List.find?_append, h]
  rfl

theorem find?_append_none {α : Type _} {p : α → Bool} {l₁ : List α}
    (l₂ : List α) (h : ∀ a ∈ l₁, p a = false) :
    (l₁ ++ l₂).find? p = l₂.find? p := by
  rw [List.find?_append, List.find?_eq_none.mpr (fun x hx => by simp [h x hx]),
      Option.none_or]

/-! ### C4: find_meshes_by_pattern -/

/-- C4: `find_meshes_by_pattern` returns exactly the MESH objects of the
scene whose lowercased name contains some lowercased pattern as a
substring; on a duplicate-free object table each such object appears
exactly once (the result list is duplicate-free), and no other object
is ever returned. -/
theorem find_meshes_by_pattern_correct (s : Scene) (pats : List String) :
    (∀ o : BObject, o ∈ find_meshes_by_pattern s pats ↔
      (o ∈ s.objects ∧ o.objType = "MESH" ∧
        ∃ p ∈ pats, containsSub o.name p = true)) ∧
    (s.objects.Nodup → (find_meshes_by_pattern s pats).Nodup) := by
  constructor
  · intro o
    simp only [find_meshes_by_pattern, List.mem_filter, matchesAny,
      Bool.and_eq_true, beq_iff_eq, List.any_eq_true, and_assoc]
  · intro h
    exact h.filter _

/-- Closed instance of C4's theorem at the demo scene. -/
theorem find_meshes_by_pattern_correct_witness :
    (demoSkin ∈ find_meshes_by_pattern demoScene (patternsFor "Body") ↔
      (demoSkin ∈ demoScene.objects ∧ demoSkin.objType = "MESH" ∧
        ∃ p ∈ patternsFor "Body", containsSub demoSkin.name p = true)) ∧
    (find_meshes_by_pattern demoScene (patternsFor "Body")).Nodup :=
  ⟨(find_meshes_by_pattern_correct demoScene (patternsFor "Body")).1 demoSkin,
   (find_meshes_by_pattern_correct demoScene (patternsFor "Body")).2 (by decide)⟩

/-! ### C5: decimate_mesh -/

/-- C5: `decimate_mesh` leaves the object unchanged when the evaluated
triangle count is already at most the target; otherwise it applies
exactly one new decimate-collapse modifier with ratio
`target / current`.  `process_meshes` invokes it (between transform
applications and cleanup) with the TARGET_TRIANGLES entry of the mesh
name, defaulting to 20000 for unlisted names. -/
theorem decimate_mesh_correct (obj : BObject) (target : Nat) :
    (get_mesh_triangle_count obj ≤ target → (decimate_mesh obj target).1 = obj) ∧
    (target < get_mesh_triangle_count obj →
      (decimate_mesh obj target).1.appliedMods = obj.appliedMods ++
        [{ name := "Decimate", modType := "DECIMATE", decimateType := "COLLAPSE",
           ratioQ := (target : ℚ) / (get_mesh_triangle_count obj : ℚ),
           useCollapseTriangulate := true }]) ∧
    (∀ st nm o, (processOne st nm o).1 =
      apply_all_transforms (cleanup_mesh
        (decimate_mesh (apply_all_transforms o) (lookupTarget nm)).1)) ∧
    lookupTarget "Body" = 20000 ∧ lookupTarget "Veins" = 30000 ∧
    lookupTarget "Brain" = 15000 ∧ lookupTarget "Heart" = 10000 ∧
    (∀ nm, nm ≠ "Body" → nm ≠ "Veins" → nm ≠ "Brain" → nm ≠ "Heart" →
      lookupTarget nm = 20000) := by
  refine ⟨?_, ?_, ?_, by decide, by decide, by decide, by decide, ?_⟩
  · intro h
    simp [decimate_mesh, h]
  · intro h
    simp [decimate_mesh, Nat.not_le.mpr h]
  · intro st nm o
    rfl
  · intro nm h1 h2 h3 h4
    have e1 : (nm == "Body") = false := beq_eq_false_iff_ne.mpr h1
    have e2 : (nm == "Veins") = false := beq_eq_false_iff_ne.mpr h2
    have e3 : (nm == "Brain") = false := beq_eq_false_iff_ne.mpr h3
    have e4 : (nm == "Heart") = false := beq_eq_false_iff_ne.mpr h4
    simp [lookupTarget, TARGET_TRIANGLES, List.lookup, e1, e2, e3, e4]

/-- Closed instance of C5's theorem: decimation fires on the oversized
demo skin mesh and skips it for a large enough target. -/
theorem decimate_mesh_correct_witness :
    (decimate_mesh demoSkin 20000).1.appliedMods = demoSkin.appliedMods ++
      [{ name := "Decimate", modType := "DECIMATE", decimateType := "COLLAPSE",
         ratioQ := ((20000 : Nat) : ℚ) / (get_mesh_triangle_count demoSkin : ℚ),
         useCollapseTriangulate := true }] ∧
    (decimate_mesh demoSkin 60000).1 = demoSkin :=
  ⟨(decimate_mesh_correct demoSkin 20000).2.1 (by decide),
   (decimate_mesh_correct demoSkin 60000).1 (by decide)⟩

/-! ### C6: cleanup_mesh -/

theorem clearAll_nil (l : List String) : clearAll l = [] := by
  induction l with
  | nil => rfl
  | cons a t ih => simpa [clearAll] using ih

/-- C6: after `cleanup_mesh` the datablock has no materials, no UV
layers, no vertex-color layers and no shape keys. -/
theorem cleanup_mesh_correct (obj : BObject) :
    (cleanup_mesh obj).data.materials = [] ∧
    (cleanup_mesh obj).data.uvLayers = [] ∧
    (cleanup_mesh obj).data.vertexColors = [] ∧
    (cleanup_mesh obj).data.hasShapeKeys = false := by
  unfold cleanup_mesh
  by_cases h : obj.data.hasShapeKeys <;> simp [h, clearAll_nil]

/-! ### Scene-operation lemmas -/

theorem removeObject_objects (s : Scene) (i : Nat) :
    (removeObject s i).objects = s.objects.filter (fun o => o.oid != i) := rfl

theorem removeObject_nextId (s : Scene) (i : Nat) :
    (removeObject s i).nextId = s.nextId := rfl

theorem removeObject_collections_of (s : Scene) (i : Nat)
    (h : ∀ c ∈ s.collections, ∀ j ∈ c.objectIds, j ≠ i) :
    (removeObject s i).collections = s.collections := by
  show s.collections.map _ = s.collections
  apply map_self_of
  intro c hc
  have hf : c.objectIds.filter (fun j => j != i) = c.objectIds :=
    filter_self_of _ _ (fun j hj => by simpa using h c hc j hj)
  simp only [hf]

theorem removeObject_idsBelow (s : Scene) (i : Nat) (h : IdsBelow s) :
    IdsBelow (removeObject s i) := by
  obtain ⟨h1, h2, h3⟩ := h
  refine ⟨?_, ?_, ?_⟩
  · intro o ho
    exact h1 o (List.mem_filter.mp ho).1
  · intro j hj
    exact h2 j (List.mem_filter.mp hj).1
  · intro c hc
    obtain ⟨c0, hc0, rfl⟩ := List.mem_map.mp hc
    exact ⟨(h3 c0 hc0).1, fun j hj => (h3 c0 hc0).2 j (List.mem_filter.mp hj).1⟩

theorem updateObject_nextId (s : Scene) (i : Nat) (o' : BObject) :
    (updateObject s i o').nextId = s.nextId := rfl

theorem updateObject_collections (s : Scene) (i : Nat) (o' : BObject) :
    (updateObject s i o').collections = s.collections := rfl

theorem updateObject_idsBelow (s : Scene) (i : Nat) (o' : BObject)
    (ho : o'.oid = i) (h : IdsBelow s) : IdsBelow (updateObject s i o') := by
  obtain ⟨h1, h2, h3⟩ := h
  refine ⟨?_, h2, h3⟩
  intro x hx
  obtain ⟨o, ho', rfl⟩ := List.mem_map.mp hx
  by_cases hoi : (o.oid == i) = true
  · simp only [hoi, if_true, ho]
    exact beq_iff_eq.mp hoi ▸ h1 o ho'
  · simp only [hoi, if_false]
    exact h1 o ho'

theorem updateObject_objects_untouched (s : Scene) (i : Nat) (o' : BObject)
    (o : BObject) (ho : o ∈ s.objects) (hne : o.oid ≠ i) :
    o ∈ (updateObject s i o').objects := by
  show o ∈ s.objects.map _
  have : (fun x : BObject => if x.oid == i then o' else x) o = o := by
    simp [beq_eq_false_iff_ne.mpr hne]
  exact this ▸ List.mem_map_of_mem _ ho

theorem duplicate_object_fst (s : Scene) (o : BObject) (nm : String) :
    (duplicate_object s o nm).1.oid = s.nextId ∧
    (duplicate_object s o nm).1.name = nm ∧
    (duplicate_object s o nm).1.objType = "MESH" ∧
    (duplicate_object s o nm).1.location = o.location :=
  ⟨rfl, rfl, rfl, rfl⟩

theorem duplicate_object_scene (s : Scene) (o : BObject) (nm : String) :
    (duplicate_object s o nm).2.objects = s.objects ++ [(duplicate_object s o nm).1] ∧
    (duplicate_object s o nm).2.rootObjects = s.rootObjects ++ [s.nextId] ∧
    (duplicate_object s o nm).2.collections = s.collections ∧
    (duplicate_object s o nm).2.nextId = s.nextId + 1 :=
  ⟨rfl, rfl, rfl, rfl⟩

theorem duplicate_object_idsBelow (s : Scene) (o : BObject) (nm : String)
    (h : IdsBelow s) : IdsBelow (duplicate_object s o nm).2 := by
  obtain ⟨h1, h2, h3⟩ := h
  refine ⟨?_, ?_, ?_⟩
  · intro x hx
    rcases List.mem_append.mp hx with hx | hx
    · exact Nat.lt_succ_of_lt (h1 x hx)
    · rw [List.mem_singleton.mp hx]
      exact Nat.lt_succ_self _
  · intro j hj
    rcases List.mem_append.mp hj with hj | hj
    · exact Nat.lt_succ_of_lt (h2 j hj)
    · rw [List.mem_singleton.mp hj]
      exact Nat.lt_succ_self _
  · intro c hc
    exact ⟨Nat.lt_succ_of_lt (h3 c hc).1,
           fun j hj => Nat.lt_succ_of_lt ((h3 c hc).2 j hj)⟩

theorem unlinkFromAll_objects (s : Scene) (i : Nat) :
    (unlinkFromAll s i).objects = s.objects := rfl

theorem unlinkFromAll_nextId (s : Scene) (i : Nat) :
    (unlinkFromAll s i).nextId = s.nextId := rfl

theorem unlinkFromAll_collections_of (s : Scene) (i : Nat)
    (h : ∀ c ∈ s.collections, ∀ j ∈ c.objectIds, j ≠ i) :
    (unlinkFromAll s i).collections = s.collections := by
  show s.collections.map _ = s.collections
  apply map_self_of
  intro c hc
  have hf : c.objectIds.filter (fun j => j != i) = c.objectIds :=
    filter_self_of _ _ (fun j hj => by simpa using h c hc j hj)
  simp only [hf]

theorem unlinkFromAll_idsBelow (s : Scene) (i : Nat) (h : IdsBelow s) :
    IdsBelow (unlinkFromAll s i) := by
  obtain ⟨h1, h2, h3⟩ := h
  refine ⟨h1, ?_, ?_⟩
  · intro j hj
    exact h2 j (List.mem_filter.mp hj).1
  · intro c hc
    obtain ⟨c0, hc0, rfl⟩ := List.mem_map.mp hc
    exact ⟨(h3 c0 hc0).1, fun j hj => (h3 c0 hc0).2 j (List.mem_filter.mp hj).1⟩

theorem removeFold_objects (remIds : List Nat) :
    ∀ s : Scene, (remIds.foldl removeObject s).objects
      = s.objects.filter (fun o => !remIds.contains o.oid) := by
  induction remIds with
  | nil =>
    intro s
    exact (filter_self_of _ _ (fun o _ => by simp)).symm
  | cons i t ih =>
    intro s
    rw [List.foldl_cons, ih, removeObject_objects, List.filter_filter]
    apply List.filter_congr
    intro o _
    by_cases h : o.oid = i <;> simp [List.contains_cons, Bool.not_or, h, bne]

theorem removeFold_nextId (remIds : List Nat) :
    ∀ s : Scene, (remIds.foldl removeObject s).nextId = s.nextId := by
  induction remIds with
  | nil => intro s; rfl
  | cons i t ih => intro s; rw [List.foldl_cons, ih, removeObject_nextId]

theorem removeFold_collections_of (remIds : List Nat) :
    ∀ s : Scene, (∀ c ∈ s.collections, ∀ j ∈ c.objectIds, j ∉ remIds) →
      (remIds.foldl removeObject s).collections = s.collections := by
  induction remIds with
  | nil => intro s _; rfl
  | cons i t ih =>
    intro s h
    have hco : (removeObject s i).collections = s.collections :=
      removeObject_collections_of s i
        (fun c hc j hj => fun e => h c hc j hj (e ▸ List.mem_cons_self i t))
    rw [List.foldl_cons, ih (removeObject s i)
      (fun c hc j hj => by
        rw [hco] at hc
        exact fun hm => h c hc j hj (List.mem_cons_of_mem i hm)), hco]

theorem removeFold_idsBelow (remIds : List Nat) :
    ∀ s : Scene, IdsBelow s → IdsBelow (remIds.foldl removeObject s) := by
  induction remIds with
  | nil => intro s h; exact h
  | cons i t ih =>
    intro s h
    rw [List.foldl_cons]
    exact ih _ (removeObject_idsBelow s i h)

/-! ### Duplication and join lemmas -/

theorem dupAll_go (nm : String) (objs : List BObject) :
    ∀ (s : Scene) (acc : List BObject),
      ∃ dups : List BObject,
        (objs.foldl (dupStep nm) (acc, s)).1 = acc ++ dups ∧
        (objs.foldl (dupStep nm) (acc, s)).2.objects = s.objects ++ dups ∧
        (objs.foldl (dupStep nm) (acc, s)).2.rootObjects
          = s.rootObjects ++ dups.map (fun d => d.oid) ∧
        (objs.foldl (dupStep nm) (acc, s)).2.collections = s.collections ∧
        (objs.foldl (dupStep nm) (acc, s)).2.nextId = s.nextId + objs.length ∧
        dups.map (fun d => d.oid) = List.range' s.nextId objs.length ∧
        (∀ d ∈ dups, d.name = nm ∧ d.objType = "MESH") := by
  induction objs with
  | nil =>
    intro s acc
    exact ⟨[], by simp, by simp, by simp, rfl, rfl, by simp, by simp⟩
  | cons o t ih =>
    intro s acc
    rw [List.foldl_cons]
    have hstep : dupStep nm (acc, s) o
        = (acc ++ [(duplicate_object s o nm).1], (duplicate_object s o nm).2) := rfl
    rw [hstep]
    obtain ⟨dups', h1, h2, h3, h4, h5, h6, h7⟩ :=
      ih (duplicate_object s o nm).2 (acc ++ [(duplicate_object s o nm).1])
    refine ⟨(duplicate_object s o nm).1 :: dups', ?_, ?_, ?_, ?_, ?_, ?_, ?_⟩
    · rw [h1]; simp
    · rw [h2, (duplicate_object_scene s o nm).1]; simp
    · rw [h3, (duplicate_object_scene s o nm).2.1]
      simp [(duplicate_object_fst s o nm).1]
    · rw [h4, (duplicate_object_scene s o nm).2.2.1]
    · rw [h5, (duplicate_object_scene s o nm).2.2.2]
      simp [Nat.add_assoc, Nat.add_comm 1 t.length]
    · rw [List.map_cons, h6, (duplicate_object_fst s o nm).1,
          (duplicate_object_scene s o nm).2.2.2, List.length_cons,
          List.range'_succ]
    · intro d hd
      rcases List.mem_cons.mp hd with hd | hd
      · subst hd
        exact ⟨(duplicate_object_fst s o nm).2.1, (duplicate_object_fst s o nm).2.2.1⟩
      · exact h7 d hd

theorem dupAll_spec (s : Scene) (objs : List BObject) (nm : String) :
    ∃ dups : List BObject,
      (dupAll s objs nm).1 = dups ∧
      (dupAll s objs nm).2.objects = s.objects ++ dups ∧
      (dupAll s objs nm).2.rootObjects = s.rootObjects ++ dups.map (fun d => d.oid) ∧
      (dupAll s objs nm).2.collections = s.collections ∧
      (dupAll s objs nm).2.nextId = s.nextId + objs.length ∧
      dups.map (fun d => d.oid) = List.range' s.nextId objs.length ∧
      (∀ d ∈ dups, d.name = nm ∧ d.objType = "MESH") := by
  obtain ⟨dups, h1, h⟩ := dupAll_go nm objs s []
  exact ⟨dups, by simpa using h1, h⟩

theorem joinMany_spec (s : Scene) (objs : List BObject) (nm : String)
    (hobjs : objs.length ≠ 0) (h : IdsBelow s) :
    ∃ (o : BObject) (added : List BObject),
      (joinMany s objs nm).1 = some o ∧
      o.name = nm ∧ o.objType = "MESH" ∧ o.oid = s.nextId ∧
      (joinMany s objs nm).2.objects = s.objects ++ added ∧
      (∀ a ∈ added, a.name = nm ∧ a.objType = "MESH" ∧ s.nextId ≤ a.oid) ∧
      (joinMany s objs nm).2.collections = s.collections ∧
      (joinMany s objs nm).2.nextId = s.nextId + objs.length ∧
      IdsBelow (joinMany s objs nm).2 := by
  obtain ⟨dups, e1, e2, e3, e4, e5, e6, e7⟩ := dupAll_spec s objs (nm ++ "_part")
  cases dups with
  | nil =>
    exfalso
    rw [List.map_nil] at e6
    exact hobjs (List.range'_eq_nil.mp e6.symm)
  | cons active rest =>
    have hlen : objs.length = rest.length + 1 := by
      have := congrArg List.length e6
      simpa using this.symm
    have hpair : active.oid = s.nextId ∧
        rest.map (fun d => d.oid) = List.range' (s.nextId + 1) rest.length := by
      rw [hlen, List.range'_succ] at e6
      simpa using e6
    have hact := hpair.1
    have hrest := hpair.2
    have hja : active.objType = "MESH" := (e7 active (List.mem_cons_self _ _)).2
    obtain ⟨hb1, hb2, hb3⟩ := h
    have hIdsDp : IdsBelow (dupAll s objs (nm ++ "_part")).2 := by
      refine ⟨?_, ?_, ?_⟩
      · intro x hx
        rw [e2] at hx
        rcases List.mem_append.mp hx with hx | hx
        · rw [e5]
          exact Nat.lt_of_lt_of_le (hb1 x hx) (Nat.le_add_right _ _)
        · rw [e5]
          have : x.oid ∈ List.range' s.nextId objs.length := by
            rw [← e6]
            exact List.mem_map_of_mem _ hx
          exact (List.mem_range'_1.mp this).2
      · intro j hj
        rw [e3] at hj
        rcases List.mem_append.mp hj with hj | hj
        · rw [e5]
          exact Nat.lt_of_lt_of_le (hb2 j hj) (Nat.le_add_right _ _)
        · rw [e5]
          have : j ∈ List.range' s.nextId objs.length := by
            rw [← e6]
            exact hj
          exact (List.mem_range'_1.mp this).2
      · intro c hc
        rw [e4] at hc
        rw [e5]
        exact ⟨Nat.lt_of_lt_of_le (hb3 c hc).1 (Nat.le_add_right _ _),
               fun j hj => Nat.lt_of_lt_of_le ((hb3 c hc).2 j hj) (Nat.le_add_right _ _)⟩
    have hnotin : ∀ j : Nat, j < s.nextId + 1 → j ∉ rest.map (fun d => d.oid) := by
      intro j hj hmem
      rw [hrest] at hmem
      exact Nat.not_le.mpr hj (List.mem_range'_1.mp hmem).1
    have hfold : rest.foldl (fun st o => removeObject st o.oid)
          (dupAll s objs (nm ++ "_part")).2
        = (rest.map (fun d => d.oid)).foldl removeObject
          (dupAll s objs (nm ++ "_part")).2 := by
      rw [List.foldl_map]
    have hremObjects : ((rest.map (fun d => d.oid)).foldl removeObject
          (dupAll s objs (nm ++ "_part")).2).objects
        = s.objects ++ [active] := by
      rw [removeFold_objects, e2, List.filter_append]
      have hleft : s.objects.filter
          (fun o => !(rest.map (fun d => d.oid)).contains o.oid) = s.objects := by
        apply filter_self_of
        intro o ho
        simpa using hnotin o.oid (Nat.lt_succ_of_lt (hb1 o ho))
      have hright : (active :: rest).filter
          (fun o => !(rest.map (fun d => d.oid)).contains o.oid) = [active] := by
        rw [List.filter_cons]
        have hactKeep : (!(rest.map (fun d => d.oid)).contains active.oid) = true := by
          simpa using hnotin active.oid (by rw [hact]; exact Nat.lt_succ_self _)
        rw [if_pos hactKeep]
        have hnil : rest.filter
            (fun o => !(rest.map (fun d => d.oid)).contains o.oid) = [] := by
          rw [List.filter_eq_nil_iff]
          intro d hd
          have hdmem : d.oid ∈ rest.map (fun x => x.oid) := List.mem_map_of_mem _ hd
          simp [hdmem]
        rw [hnil]
      rw [hleft, hright]
    have hremColl : ((rest.map (fun d => d.oid)).foldl removeObject
          (dupAll s objs (nm ++ "_part")).2).collections = s.collections := by
      rw [removeFold_collections_of _ _ ?_, e4]
      intro c hc j hj hmem
      rw [e4] at hc
      have : j ∈ List.range' (s.nextId + 1) rest.length := by
        rw [← hrest]
        exact hmem
      exact Nat.not_le.mpr ((hb3 c hc).2 j hj)
        (Nat.le_of_succ_le (List.mem_range'_1.mp this).1)
    have hremNext : ((rest.map (fun d => d.oid)).foldl removeObject
          (dupAll s objs (nm ++ "_part")).2).nextId = s.nextId + objs.length := by
      rw [removeFold_nextId, e5]
    have hremIds : IdsBelow ((rest.map (fun d => d.oid)).foldl removeObject
          (dupAll s objs (nm ++ "_part")).2) :=
      removeFold_idsBelow _ _ hIdsDp
    refine ⟨joinedOf active (active :: rest) nm, [joinedOf active (active :: rest) nm],
            ?_, rfl, hja, hact, ?_, ?_, ?_, ?_, ?_⟩
    · show (joinMany s objs nm).1 = _
      unfold joinMany
      simp only [e1]
    · show (joinMany s objs nm).2.objects = _
      unfold joinMany
      simp only [e1, hfold]
      rw [show (updateObject ((rest.map (fun d => d.oid)).foldl removeObject
            (dupAll s objs (nm ++ "_part")).2) active.oid
            (joinedOf active (active :: rest) nm)).objects
          = ((rest.map (fun d => d.oid)).foldl removeObject
            (dupAll s objs (nm ++ "_part")).2).objects.map
              (fun o => if o.oid == active.oid then
                joinedOf active (active :: rest) nm else o) from rfl]
      rw [hremObjects, List.map_append]
      have hl : s.objects.map (fun o => if o.oid == active.oid then
          joinedOf active (active :: rest) nm else o) = s.objects := by
        apply map_self_of
        intro o ho
        have hne : (o.oid == active.oid) = false := by
          apply beq_eq_false_iff_ne.mpr
          intro e
          rw [hact] at e
          exact Nat.lt_irrefl _ (e ▸ hb1 o ho)
        simp [hne]
      rw [hl]
      simp
    · intro a ha
      rw [List.mem_singleton.mp ha]
      exact ⟨rfl, hja, le_of_eq hact.symm⟩
    · show (joinMany s objs nm).2.collections = _
      unfold joinMany
      simp only [e1, hfold]
      rw [updateObject_collections, hremColl]
    · show (joinMany s objs nm).2.nextId = _
      unfold joinMany
      simp only [e1, hfold]
      rw [updateObject_nextId, hremNext]
    · show IdsBelow (joinMany s objs nm).2
      unfold joinMany
      simp only [e1, hfold]
      exact updateObject_idsBelow _ _ _ rfl hremIds

theorem join_meshes_spec (s : Scene) (f : BObject) (fs : List BObject)
    (nm : String) (h : IdsBelow s) :
    ∃ (o : BObject) (added : List BObject),
      (join_meshes s (f :: fs) nm).1 = some o ∧
      o.name = nm ∧ o.objType = "MESH" ∧ o.oid = s.nextId ∧
      (join_meshes s (f :: fs) nm).2.objects = s.objects ++ added ∧
      (∀ a ∈ added, a.name = nm ∧ a.objType = "MESH" ∧ s.nextId ≤ a.oid) ∧
      (join_meshes s (f :: fs) nm).2.collections = s.collections ∧
      s.nextId < (join_meshes s (f :: fs) nm).2.nextId ∧
      IdsBelow (join_meshes s (f :: fs) nm).2 := by
  cases fs with
  | nil =>
    refine ⟨(duplicate_object s f nm).1, [(duplicate_object s f nm).1],
            rfl, rfl, rfl, rfl, rfl, ?_, rfl, Nat.lt_succ_self _,
            duplicate_object_idsBelow s f nm h⟩
    intro a ha
    rw [List.mem_singleton.mp ha]
    exact ⟨rfl, rfl, Nat.le_refl _⟩
  | cons f2 fs2 =>
    obtain ⟨o, added, h1, h2, h3, h4, h5, h6, h7, h8, h9⟩ :=
      joinMany_spec s (f :: f2 :: fs2) nm (by simp) h
    have hj : join_meshes s (f :: f2 :: fs2) nm = joinMany s (f :: f2 :: fs2) nm := rfl
    rw [hj]
    refine ⟨o, added, h1, h2, h3, h4, h5, h6, h7, ?_, h9⟩
    rw [h8]
    simp only [List.length_cons]
    omega

theorem create_placeholder_spec (st : St) (nm : String) :
    (create_placeholder_mesh st nm).1.name = nm ∧
    (create_placeholder_mesh st nm).1.objType = "MESH" ∧
    (create_placeholder_mesh st nm).1.oid = st.scene.nextId ∧
    (create_placeholder_mesh st nm).1.data = placeholderData nm (placeholderParams nm).1 ∧
    (create_placeholder_mesh st nm).1.location = (placeholderParams nm).2.1 ∧
    (create_placeholder_mesh st nm).2.scene.objects
      = st.scene.objects ++ [(create_placeholder_mesh st nm).1] ∧
    (create_placeholder_mesh st nm).2.scene.collections = st.scene.collections ∧
    (create_placeholder_mesh st nm).2.scene.nextId = st.scene.nextId + 1 ∧
    (create_placeholder_mesh st nm).2.log
      = st.log ++ [LogEntry.msg "WARN" ("  Created placeholder for " ++ nm)] ∧
    (create_placeholder_mesh st nm).2.effects = st.effects ∧
    (IdsBelow st.scene → IdsBelow (create_placeholder_mesh st nm).2.scene) := by
  refine ⟨rfl, rfl, rfl, rfl, rfl, rfl, rfl, rfl, rfl, rfl, ?_⟩
  intro h
  obtain ⟨h1, h2, h3⟩ := h
  refine ⟨?_, ?_, ?_⟩
  · intro x hx
    rcases List.mem_append.mp hx with hx | hx
    · exact Nat.lt_succ_of_lt (h1 x hx)
    · rw [List.mem_singleton.mp hx]
      exact Nat.lt_succ_self _
  · intro j hj
    rcases List.mem_append.mp hj with hj | hj
    · exact Nat.lt_succ_of_lt (h2 j hj)
    · rw [List.mem_singleton.mp hj]
      exact Nat.lt_succ_self _
  · intro c hc
    exact ⟨Nat.lt_succ_of_lt (h3 c hc).1,
           fun j hj => Nat.lt_succ_of_lt ((h3 c hc).2 j hj)⟩

theorem extractOne_spec (st : St) (nm : String) (pats : List String)
    (h : IdsBelow st.scene) :
    (extractOne st nm pats).1.name = nm ∧
    (extractOne st nm pats).1.objType = "MESH" ∧
    (extractOne st nm pats).1.oid = st.scene.nextId ∧
    st.scene.nextId < (extractOne st nm pats).2.scene.nextId ∧
    IdsBelow (extractOne st nm pats).2.scene ∧
    (extractOne st nm pats).2.effects = st.effects ∧
    (∃ es, (extractOne st nm pats).2.log = st.log ++ es ∧ es.all benignEntry = true) ∧
    (∃ added, (extractOne st nm pats).2.scene.objects = st.scene.objects ++ added ∧
      ∀ a ∈ added, a.name = nm ∧ a.objType = "MESH" ∧ st.scene.nextId ≤ a.oid) ∧
    (extractOne st nm pats).2.scene.collections = st.scene.collections ∧
    (find_meshes_by_pattern st.scene pats = [] →
      (extractOne st nm pats).1.data = placeholderData nm (placeholderParams nm).1 ∧
      (extractOne st nm pats).1.location = (placeholderParams nm).2.1 ∧
      LogEntry.msg "WARN" ("  " ++ nm ++ ": NOT FOUND - will create placeholder")
        ∈ (extractOne st nm pats).2.log) := by
  cases hf : find_meshes_by_pattern st.scene pats with
  | nil =>
    have hred : extractOne st nm pats
        = create_placeholder_mesh
            { st with log := st.log ++ [LogEntry.msg "WARN"
                ("  " ++ nm ++ ": NOT FOUND - will create placeholder")] } nm := by
      unfold extractOne
      rw [hf]
    set st1 : St := { st with log := st.log ++ [LogEntry.msg "WARN"
        ("  " ++ nm ++ ": NOT FOUND - will create placeholder")] } with hst1
    obtain ⟨p1, p2, p3, p4, p5, p6, p7, p8, p9, p10, p11⟩ := create_placeholder_spec st1 nm
    rw [hred]
    refine ⟨p1, p2, p3, ?_, p11 h, p10, ?_, ?_, p7, ?_⟩
    · rw [p8]
      exact Nat.lt_succ_self _
    · refine ⟨[LogEntry.msg "WARN" ("  " ++ nm ++ ": NOT FOUND - will create placeholder"),
               LogEntry.msg "WARN" ("  Created placeholder for " ++ nm)], ?_,
               by simp [benignEntry]⟩
      rw [p9]
      simp [hst1]
    · refine ⟨[(create_placeholder_mesh st1 nm).1], p6, ?_⟩
      intro a ha
      rw [List.mem_singleton.mp ha]
      exact ⟨p1, p2, le_of_eq p3.symm⟩
    · intro _
      refine ⟨p4, p5, ?_⟩
      rw [p9]
      simp
  | cons f fs =>
    obtain ⟨o, added, j1, j2, j3, j4, j5, j6, j7, j8, j9⟩ :=
      join_meshes_spec st.scene f fs nm h
    have hpair : join_meshes st.scene (f :: fs) nm
        = (some o, (join_meshes st.scene (f :: fs) nm).2) :=
      Prod.ext_iff.mpr ⟨j1, rfl⟩
    have hred : extractOne st nm pats
        = (o, { st with
                scene := (join_meshes st.scene (f :: fs) nm).2,
                log := st.log ++ [LogEntry.msg "INFO"
                  ("  " ++ nm ++ ": Found " ++ toString (f :: fs).length
                   ++ " matching objects")] }) := by
      simp only [extractOne, hf]
      rw [hpair]
    rw [hred]
    refine ⟨j2, j3, j4, j8, j9, rfl, ?_, ⟨added, j5, j6⟩, j7, ?_⟩
    · exact ⟨[LogEntry.msg "INFO" ("  " ++ nm ++ ": Found "
          ++ toString (f :: fs).length ++ " matching objects")], rfl, by simp [benignEntry]⟩
    · intro hcon
      exact absurd hcon (List.cons_ne_nil f fs)

/-! ### Extraction-loop lemmas -/

theorem extract_unfold (st : St) :
    extract_anatomy_meshes st
      = ([("Body", (exR1 st).1), ("Veins", (exR2 st).1),
          ("Brain", (exR3 st).1), ("Heart", (exR4 st).1)], (exR4 st).2) := rfl

theorem notMatch_of_name (pats : List String) (o : BObject) (nm : String)
    (hnm : o.name = nm)
    (hdec : pats.any (fun p => containsSub nm p) = false) :
    matchesAny pats o = false := by
  unfold matchesAny
  rw [hnm, hdec, Bool.and_false]

theorem filter_matches_append (A B : List BObject) (pats : List String)
    (hA : A.filter (matchesAny pats) = [])
    (hB : ∀ a ∈ B, matchesAny pats a = false) :
    (A ++ B).filter (matchesAny pats) = [] := by
  rw [List.filter_append, hA, List.nil_append, List.filter_eq_nil_iff]
  intro a ha
  simp [hB a ha]

theorem extract_spec (st : St) (h : IdsBelow st.scene) :
    (∀ kv ∈ (extract_anatomy_meshes st).1,
      kv.2.name = kv.1 ∧ kv.2.objType = "MESH" ∧ st.scene.nextId ≤ kv.2.oid) ∧
    st.scene.nextId ≤ (extract_anatomy_meshes st).2.scene.nextId ∧
    IdsBelow (extract_anatomy_meshes st).2.scene ∧
    (extract_anatomy_meshes st).2.effects = st.effects ∧
    (∃ es, (extract_anatomy_meshes st).2.log = st.log ++ es ∧
      es.all benignEntry = true) ∧
    (∃ added, (extract_anatomy_meshes st).2.scene.objects
        = st.scene.objects ++ added ∧ ∀ a ∈ added, st.scene.nextId ≤ a.oid) ∧
    (extract_anatomy_meshes st).2.scene.collections = st.scene.collections ∧
    (∀ k o, (k, o) ∈ (extract_anatomy_meshes st).1 →
      find_meshes_by_pattern st.scene (patternsFor k) = [] →
      o.data = placeholderData k (placeholderParams k).1 ∧
      o.location = (placeholderParams k).2.1 ∧
      o.oid ∉ st.scene.objects.map (fun x => x.oid) ∧
      LogEntry.msg "WARN" ("  " ++ k ++ ": NOT FOUND - will create placeholder")
        ∈ (extract_anatomy_meshes st).2.log) := by
  obtain ⟨p1n, p1t, p1d, p1lt, p1ib, p1ef, ⟨es1, p1lg, p1bn⟩,
          ⟨ad1, p1ob, p1fa⟩, p1co, p1ph⟩ :=
    extractOne_spec (exSt0 st) "Body" (patternsFor "Body") h
  have hx1 : extractOne (exSt0 st) "Body" (patternsFor "Body") = exR1 st := rfl
  rw [hx1] at p1n p1t p1d p1lt p1ib p1ef p1lg p1ob p1co p1ph
  obtain ⟨p2n, p2t, p2d, p2lt, p2ib, p2ef, ⟨es2, p2lg, p2bn⟩,
          ⟨ad2, p2ob, p2fa⟩, p2co, p2ph⟩ :=
    extractOne_spec (exR1 st).2 "Veins" (patternsFor "Veins") p1ib
  have hx2 : extractOne (exR1 st).2 "Veins" (patternsFor "Veins") = exR2 st := rfl
  rw [hx2] at p2n p2t p2d p2lt p2ib p2ef p2lg p2ob p2co p2ph
  obtain ⟨p3n, p3t, p3d, p3lt, p3ib, p3ef, ⟨es3, p3lg, p3bn⟩,
          ⟨ad3, p3ob, p3fa⟩, p3co, p3ph⟩ :=
    extractOne_spec (exR2 st).2 "Brain" (patternsFor "Brain") p2ib
  have hx3 : extractOne (exR2 st).2 "Brain" (patternsFor "Brain") = exR3 st := rfl
  rw [hx3] at p3n p3t p3d p3lt p3ib p3ef p3lg p3ob p3co p3ph
  obtain ⟨p4n, p4t, p4d, p4lt, p4ib, p4ef, ⟨es4, p4lg, p4bn⟩,
          ⟨ad4, p4ob, p4fa⟩, p4co, p4ph⟩ :=
    extractOne_spec (exR3 st).2 "Heart" (patternsFor "Heart") p3ib
  have hx4 : extractOne (exR3 st).2 "Heart" (patternsFor "Heart") = exR4 st := rfl
  rw [hx4] at p4n p4t p4d p4lt p4ib p4ef p4lg p4ob p4co p4ph
  -- restatements in the stage notation
  have e1ob : (exR1 st).2.scene.objects = st.scene.objects ++ ad1 := p1ob
  have e2ob : (exR2 st).2.scene.objects = (exR1 st).2.scene.objects ++ ad2 := p2ob
  have e3ob : (exR3 st).2.scene.objects = (exR2 st).2.scene.objects ++ ad3 := p3ob
  have e4ob : (exR4 st).2.scene.objects = (exR3 st).2.scene.objects ++ ad4 := p4ob
  have e1lg : (exR1 st).2.log = st.log
      ++ [LogEntry.msg "INFO" "Searching for anatomy meshes in Z-Anatomy..."] ++ es1 := p1lg
  have e2lg : (exR2 st).2.log = (exR1 st).2.log ++ es2 := p2lg
  have e3lg : (exR3 st).2.log = (exR2 st).2.log ++ es3 := p3lg
  have e4lg : (exR4 st).2.log = (exR3 st).2.log ++ es4 := p4lg
  have e1co : (exR1 st).2.scene.collections = st.scene.collections := p1co
  have e2co : (exR2 st).2.scene.collections = (exR1 st).2.scene.collections := p2co
  have e3co : (exR3 st).2.scene.collections = (exR2 st).2.scene.collections := p3co
  have e4co : (exR4 st).2.scene.collections = (exR3 st).2.scene.collections := p4co
  have e1ef : (exR1 st).2.effects = st.effects := p1ef
  have e2ef : (exR2 st).2.effects = (exR1 st).2.effects := p2ef
  have e3ef : (exR3 st).2.effects = (exR2 st).2.effects := p3ef
  have e4ef : (exR4 st).2.effects = (exR3 st).2.effects := p4ef
  have m1 : st.scene.nextId ≤ (exR1 st).2.scene.nextId := Nat.le_of_lt p1lt
  have m2 : st.scene.nextId ≤ (exR2 st).2.scene.nextId :=
    Nat.le_trans m1 (Nat.le_of_lt p2lt)
  have m3 : st.scene.nextId ≤ (exR3 st).2.scene.nextId :=
    Nat.le_trans m2 (Nat.le_of_lt p3lt)
  have m4 : st.scene.nextId ≤ (exR4 st).2.scene.nextId :=
    Nat.le_trans m3 (Nat.le_of_lt p4lt)
  have f1 : ∀ a ∈ ad1, a.name = "Body" ∧ a.objType = "MESH"
      ∧ st.scene.nextId ≤ a.oid :=
    fun a ha => ⟨(p1fa a ha).1, (p1fa a ha).2.1, (p1fa a ha).2.2⟩
  have f2 : ∀ a ∈ ad2, a.name = "Veins" ∧ a.objType = "MESH"
      ∧ st.scene.nextId ≤ a.oid :=
    fun a ha => ⟨(p2fa a ha).1, (p2fa a ha).2.1, Nat.le_trans m1 (p2fa a ha).2.2⟩
  have f3 : ∀ a ∈ ad3, a.name = "Brain" ∧ a.objType = "MESH"
      ∧ st.scene.nextId ≤ a.oid :=
    fun a ha => ⟨(p3fa a ha).1, (p3fa a ha).2.1, Nat.le_trans m2 (p3fa a ha).2.2⟩
  have f4 : ∀ a ∈ ad4, a.name = "Heart" ∧ a.objType = "MESH"
      ∧ st.scene.nextId ≤ a.oid :=
    fun a ha => ⟨(p4fa a ha).1, (p4fa a ha).2.1, Nat.le_trans m3 (p4fa a ha).2.2⟩
  refine ⟨?_, ?_, ?_, ?_, ?_, ?_, ?_, ?_⟩
  · -- keys, types, freshness of the four extracted entries
    intro kv hkv
    rw [extract_unfold] at hkv
    simp only [List.mem_cons, List.not_mem_nil, or_false] at hkv
    rcases hkv with rfl | rfl | rfl | rfl
    · exact ⟨p1n, p1t, by rw [p1d]; exact Nat.le_refl _⟩
    · exact ⟨p2n, p2t, by rw [p2d]; exact m1⟩
    · exact ⟨p3n, p3t, by rw [p3d]; exact m2⟩
    · exact ⟨p4n, p4t, by rw [p4d]; exact m3⟩
  · rw [extract_unfold]
    exact m4
  · rw [extract_unfold]
    exact p4ib
  · rw [extract_unfold]
    rw [e4ef, e3ef, e2ef, e1ef]
  · rw [extract_unfold]
    refine ⟨[LogEntry.msg "INFO" "Searching for anatomy meshes in Z-Anatomy..."]
        ++ es1 ++ es2 ++ es3 ++ es4, ?_, ?_⟩
    · rw [e4lg, e3lg, e2lg, e1lg]
      simp [List.append_assoc]
    · simp only [List.all_append, Bool.and_eq_true]
      exact ⟨⟨⟨⟨by simp [benignEntry], p1bn⟩, p2bn⟩, p3bn⟩, p4bn⟩
  · rw [extract_unfold]
    refine ⟨ad1 ++ ad2 ++ ad3 ++ ad4, ?_, ?_⟩
    · rw [e4ob, e3ob, e2ob, e1ob]
      simp [List.append_assoc]
    · intro a ha
      simp only [List.mem_append] at ha
      rcases ha with ((ha | ha) | ha) | ha
      · exact (f1 a ha).2.2
      · exact (f2 a ha).2.2
      · exact (f3 a ha).2.2
      · exact (f4 a ha).2.2
  · rw [extract_unfold]
    rw [e4co, e3co, e2co, e1co]
  · -- the placeholder clause, per key
    intro k o hmem hfind
    rw [extract_unfold] at hmem
    simp only [List.mem_cons, List.not_mem_nil, or_false, Prod.mk.injEq] at hmem
    have hwlift2 : ∀ x : LogEntry, x ∈ (exR1 st).2.log → x ∈ (exR4 st).2.log := by
      intro x hx
      rw [e4lg, e3lg, e2lg]
      exact List.mem_append_left _ (List.mem_append_left _ (List.mem_append_left _ hx))
    have hwlift3 : ∀ x : LogEntry, x ∈ (exR2 st).2.log → x ∈ (exR4 st).2.log := by
      intro x hx
      rw [e4lg, e3lg]
      exact List.mem_append_left _ (List.mem_append_left _ hx)
    have hwlift4 : ∀ x : LogEntry, x ∈ (exR3 st).2.log → x ∈ (exR4 st).2.log := by
      intro x hx
      rw [e4lg]
      exact List.mem_append_left _ hx
    have hfresh : ∀ n : Nat, st.scene.nextId ≤ n →
        n ∉ st.scene.objects.map (fun x => x.oid) := by
      intro n hn hmem'
      obtain ⟨x, hx, hEq⟩ := List.mem_map.mp hmem'
      exact Nat.not_le.mpr (hEq ▸ h.1 x hx) hn
    rcases hmem with ⟨hk, ho⟩ | ⟨hk, ho⟩ | ⟨hk, ho⟩ | ⟨hk, ho⟩
    · subst hk
      subst ho
      obtain ⟨q1, q2, q3⟩ := p1ph hfind
      refine ⟨q1, q2, ?_, ?_⟩
      · rw [p1d]
        exact hfresh _ (Nat.le_refl _)
      · rw [extract_unfold]
        exact hwlift2 _ q3
    · subst hk
      subst ho
      have hturn : find_meshes_by_pattern (exR1 st).2.scene (patternsFor "Veins") = [] := by
        show (exR1 st).2.scene.objects.filter (matchesAny (patternsFor "Veins")) = []
        rw [e1ob]
        exact filter_matches_append _ _ _ hfind
          (fun a ha => notMatch_of_name _ a "Body" (f1 a ha).1 (by decide))
      obtain ⟨q1, q2, q3⟩ := p2ph hturn
      refine ⟨q1, q2, ?_, ?_⟩
      · rw [p2d]
        exact hfresh _ m1
      · rw [extract_unfold]
        exact hwlift3 _ q3
    · subst hk
      subst ho
      have hturn : find_meshes_by_pattern (exR2 st).2.scene (patternsFor "Brain") = [] := by
        show (exR2 st).2.scene.objects.filter (matchesAny (patternsFor "Brain")) = []
        rw [e2ob, e1ob]
        refine filter_matches_append _ _ _ ?_
          (fun a ha => notMatch_of_name _ a "Veins" (f2 a ha).1 (by decide))
        exact filter_matches_append _ _ _ hfind
          (fun a ha => notMatch_of_name _ a "Body" (f1 a ha).1 (by decide))
      obtain ⟨q1, q2, q3⟩ := p3ph hturn
      refine ⟨q1, q2, ?_, ?_⟩
      · rw [p3d]
        exact hfresh _ m2
      · rw [extract_unfold]
        exact hwlift4 _ q3
    · subst hk
      subst ho
      have hturn : find_meshes_by_pattern (exR3 st).2.scene (patternsFor "Heart") = [] := by
        show (exR3 st).2.scene.objects.filter (matchesAny (patternsFor "Heart")) = []
        rw [e3ob, e2ob, e1ob]
        refine filter_matches_append _ _ _ ?_
          (fun a ha => notMatch_of_name _ a "Brain" (f3 a ha).1 (by decide))
        refine filter_matches_append _ _ _ ?_
          (fun a ha => notMatch_of_name _ a "Veins" (f2 a ha).1 (by decide))
        exact filter_matches_append _ _ _ hfind
          (fun a ha => notMatch_of_name _ a "Body" (f1 a ha).1 (by decide))
      obtain ⟨q1, q2, q3⟩ := p4ph hturn
      refine ⟨q1, q2, ?_, ?_⟩
      · rw [p4d]
        exact hfresh _ m3
      · rw [extract_unfold]
        exact q3

/-! ### C9: extraction never fails -/

/-- C9: `extract_anatomy_meshes` is total — its key list is exactly
Body, Veins, Brain, Heart; the extraction logs only INFO/WARN entries;
and a key whose patterns match nothing in the scene gets a freshly
created placeholder primitive bearing that key as its name, with a
NOT-FOUND warning in the log. -/
theorem extract_anatomy_meshes_total (s0 : Scene) (h : IdsBelow s0) :
    ((extract_anatomy_meshes ⟨s0, [], []⟩).1).map Prod.fst
      = ["Body", "Veins", "Brain", "Heart"] ∧
    ((extract_anatomy_meshes ⟨s0, [], []⟩).2).log.all benignEntry = true ∧
    (∀ k o, (k, o) ∈ (extract_anatomy_meshes ⟨s0, [], []⟩).1 →
      find_meshes_by_pattern s0 (patternsFor k) = [] →
      o.name = k ∧ o.objType = "MESH" ∧
      o.oid ∉ s0.objects.map (fun x => x.oid) ∧
      o.data = placeholderData k (placeholderParams k).1 ∧
      LogEntry.msg "WARN" ("  " ++ k ++ ": NOT FOUND - will create placeholder")
        ∈ (extract_anatomy_meshes ⟨s0, [], []⟩).2.log) := by
  obtain ⟨c1, c2, c3, c4, ⟨es, clog, cbn⟩, c6, c7, c8⟩ :=
    extract_spec ⟨s0, [], []⟩ h
  refine ⟨?_, ?_, ?_⟩
  · rw [extract_unfold]
    rfl
  · rw [clog]
    simpa using cbn
  · intro k o hmem hfind
    have hph := c8 k o hmem hfind
    have hko := c1 (k, o) hmem
    exact ⟨hko.1, hko.2.1, hph.2.2.1, hph.1, hph.2.2.2⟩

/-- Closed instance of C9's theorem: on the empty scene every key is
missing and the Heart entry is a fresh placeholder named Heart. -/
theorem extract_anatomy_meshes_total_witness :
    ((extract_anatomy_meshes ⟨emptyScene, [], []⟩).1).map Prod.fst
      = ["Body", "Veins", "Brain", "Heart"] ∧
    heartFromEmpty.name = "Heart" ∧ heartFromEmpty.objType = "MESH" ∧
    heartFromEmpty.data = placeholderData "Heart" (placeholderParams "Heart").1 ∧
    LogEntry.msg "WARN" ("  " ++ "Heart" ++ ": NOT FOUND - will create placeholder")
      ∈ (extract_anatomy_meshes ⟨emptyScene, [], []⟩).2.log := by
  have h := extract_anatomy_meshes_total emptyScene (by decide)
  have hh : heartFromEmpty = (exR4 (⟨emptyScene, [], []⟩ : St)).1 := rfl
  have hmem : ("Heart", heartFromEmpty)
      ∈ (extract_anatomy_meshes ⟨emptyScene, [], []⟩).1 := by
    rw [extract_unfold, hh]
    simp
  have hfind : find_meshes_by_pattern emptyScene (patternsFor "Heart") = [] := rfl
  have hx := h.2.2 "Heart" heartFromEmpty hmem hfind
  exact ⟨h.1, hx.1, hx.2.1, hx.2.2.2.1, hx.2.2.2.2⟩

/-! ### Processing and centering lemmas -/

theorem decimate_preserves (obj : BObject) (t : Nat) :
    (decimate_mesh obj t).1.oid = obj.oid ∧
    (decimate_mesh obj t).1.name = obj.name ∧
    (decimate_mesh obj t).1.objType = obj.objType := by
  unfold decimate_mesh
  dsimp only
  split
  · exact ⟨rfl, rfl, rfl⟩
  · exact ⟨rfl, rfl, rfl⟩

theorem decimate_log_benign (obj : BObject) (t : Nat) :
    (decimate_mesh obj t).2.all benignEntry = true := by
  unfold decimate_mesh
  dsimp only
  split
  · simp [benignEntry]
  · simp [benignEntry]

theorem cleanup_preserves (obj : BObject) :
    (cleanup_mesh obj).oid = obj.oid ∧
    (cleanup_mesh obj).name = obj.name ∧
    (cleanup_mesh obj).objType = obj.objType := by
  unfold cleanup_mesh
  dsimp only
  split
  · exact ⟨rfl, rfl, rfl⟩
  · exact ⟨rfl, rfl, rfl⟩

theorem processOne_spec (st : St) (nm : String) (o : BObject) :
    (processOne st nm o).1.oid = o.oid ∧
    (processOne st nm o).2.scene
      = updateObject st.scene o.oid (processOne st nm o).1 ∧
    (processOne st nm o).2.effects = st.effects ∧
    (∃ es, (processOne st nm o).2.log = st.log ++ es ∧
      es.all benignEntry = true) := by
  have h1 : (processOne st nm o).1
      = apply_all_transforms (cleanup_mesh
          (decimate_mesh (apply_all_transforms o) (lookupTarget nm)).1) := rfl
  refine ⟨?_, rfl, rfl, ?_⟩
  · rw [h1]
    show (cleanup_mesh (decimate_mesh (apply_all_transforms o) (lookupTarget nm)).1).oid
        = o.oid
    rw [(cleanup_preserves _).1, (decimate_preserves _ _).1]
    rfl
  · refine ⟨[LogEntry.msg "INFO" ("Processing " ++ nm ++ "...")]
        ++ (decimate_mesh (apply_all_transforms o) (lookupTarget nm)).2, ?_, ?_⟩
    · show st.log ++ _ ++ _ = _
      simp [List.append_assoc]
    · simp only [List.all_append, Bool.and_eq_true]
      exact ⟨by simp [benignEntry], decimate_log_benign _ _⟩

theorem processFold_spec (ms : List (String × BObject)) :
    ∀ (st : St) (acc : List (String × BObject)),
      ∃ vs, (ms.foldl processStep (acc, st)).1 = acc ++ vs ∧
        vs.map Prod.fst = ms.map Prod.fst ∧
        (∀ kv ∈ vs, ∃ kv0 ∈ ms, kv.2.oid = kv0.2.oid) ∧
        (ms.foldl processStep (acc, st)).2.effects = st.effects ∧
        (ms.foldl processStep (acc, st)).2.scene.collections
          = st.scene.collections ∧
        (ms.foldl processStep (acc, st)).2.scene.nextId = st.scene.nextId ∧
        (ms.foldl processStep (acc, st)).2.scene.rootObjects
          = st.scene.rootObjects ∧
        (∃ es, (ms.foldl processStep (acc, st)).2.log = st.log ++ es ∧
          es.all benignEntry = true) ∧
        (IdsBelow st.scene → IdsBelow (ms.foldl processStep (acc, st)).2.scene) ∧
        (∀ o ∈ st.scene.objects, (∀ kv ∈ ms, o.oid ≠ kv.2.oid) →
          o ∈ (ms.foldl processStep (acc, st)).2.scene.objects) := by
  induction ms with
  | nil =>
    intro st acc
    exact ⟨[], by simp, rfl, by simp, rfl, rfl, rfl, rfl, ⟨[], by simp, rfl⟩,
           fun hI => hI, fun o ho _ => ho⟩
  | cons kv0 t ih =>
    intro st acc
    rw [List.foldl_cons]
    have hstep : processStep (acc, st) kv0
        = (acc ++ [(kv0.1, (processOne st kv0.1 kv0.2).1)],
           (processOne st kv0.1 kv0.2).2) := rfl
    rw [hstep]
    obtain ⟨po, psc, pef, ⟨es0, plg, pbn⟩⟩ := processOne_spec st kv0.1 kv0.2
    obtain ⟨vs, h1, h2, h3, h4, h5, h6, h7, ⟨es, h8, h8b⟩, h9, h10⟩ :=
      ih (processOne st kv0.1 kv0.2).2 (acc ++ [(kv0.1, (processOne st kv0.1 kv0.2).1)])
    refine ⟨(kv0.1, (processOne st kv0.1 kv0.2).1) :: vs, ?_, ?_, ?_, ?_, ?_, ?_, ?_,
            ?_, ?_, ?_⟩
    · rw [h1]
      simp
    · simp [h2]
    · intro kv hkv
      rcases List.mem_cons.mp hkv with rfl | hkv
      · exact ⟨kv0, List.mem_cons_self _ _, po⟩
      · obtain ⟨kvx, hkvx, he⟩ := h3 kv hkv
        exact ⟨kvx, List.mem_cons_of_mem _ hkvx, he⟩
    · rw [h4, pef]
    · rw [h5, psc, updateObject_collections]
    · rw [h6, psc, updateObject_nextId]
    · rw [h7, psc]
      rfl
    · refine ⟨es0 ++ es, ?_, ?_⟩
      · rw [h8, plg]
        simp [List.append_assoc]
      · simp only [List.all_append, Bool.and_eq_true]
        exact ⟨pbn, h8b⟩
    · intro hI
      apply h9
      rw [psc]
      exact updateObject_idsBelow _ _ _ po hI
    · intro o ho hne
      apply h10
      · rw [psc]
        exact updateObject_objects_untouched _ _ _ o ho
          (hne kv0 (List.mem_cons_self _ _))
      · intro kv hkv
        exact hne kv (List.mem_cons_of_mem _ hkv)

theorem centerFold_spec (ms : List (String × BObject)) :
    ∀ (st : St) (acc : List (String × BObject)),
      ∃ vs, (ms.foldl centerStep (acc, st)).1 = acc ++ vs ∧
        vs.map Prod.fst = ms.map Prod.fst ∧
        (∀ kv ∈ vs, ∃ kv0 ∈ ms, kv.2.oid = kv0.2.oid) ∧
        (ms.foldl centerStep (acc, st)).2.effects = st.effects ∧
        (ms.foldl centerStep (acc, st)).2.scene.collections
          = st.scene.collections ∧
        (ms.foldl centerStep (acc, st)).2.scene.nextId = st.scene.nextId ∧
        (ms.foldl centerStep (acc, st)).2.log = st.log ∧
        (IdsBelow st.scene → IdsBelow (ms.foldl centerStep (acc, st)).2.scene) ∧
        (∀ o ∈ st.scene.objects, (∀ kv ∈ ms, o.oid ≠ kv.2.oid) →
          o ∈ (ms.foldl centerStep (acc, st)).2.scene.objects) := by
  induction ms with
  | nil =>
    intro st acc
    exact ⟨[], by simp, rfl, by simp, rfl, rfl, rfl, rfl,
           fun hI => hI, fun o ho _ => ho⟩
  | cons kv0 t ih =>
    intro st acc
    rw [List.foldl_cons]
    have hstep : centerStep (acc, st) kv0
        = (acc ++ [(kv0.1, center_origin_to_floor kv0.2)],
           { st with scene := updateObject st.scene kv0.2.oid (center_origin_to_floor kv0.2) }) := rfl
    rw [hstep]
    obtain ⟨vs, h1, h2, h3, h4, h5, h6, h7, h9, h10⟩ :=
      ih { st with scene := updateObject st.scene kv0.2.oid (center_origin_to_floor kv0.2) }
         (acc ++ [(kv0.1, center_origin_to_floor kv0.2)])
    refine ⟨(kv0.1, center_origin_to_floor kv0.2) :: vs, ?_, ?_, ?_, ?_, ?_, ?_, ?_,
            ?_, ?_⟩
    · rw [h1]
      simp
    · simp [h2]
    · intro kv hkv
      rcases List.mem_cons.mp hkv with rfl | hkv
      · exact ⟨kv0, List.mem_cons_self _ _, rfl⟩
      · obtain ⟨kvx, hkvx, he⟩ := h3 kv hkv
        exact ⟨kvx, List.mem_cons_of_mem _ hkvx, he⟩
    · rw [h4]
    · rw [h5]
      exact updateObject_collections _ _ _
    · rw [h6]
      exact updateObject_nextId _ _ _
    · rw [h7]
    · intro hI
      exact h9 (updateObject_idsBelow _ _ _ rfl hI)
    · intro o ho hne
      apply h10
      · exact updateObject_objects_untouched _ _ _ o ho
          (hne kv0 (List.mem_cons_self _ _))
      · intro kv hkv
        exact hne kv (List.mem_cons_of_mem _ hkv)

/-! ### Pose-collection lemmas -/

theorem poseStep_scene (cid : Nat) (st : St) (kv : String × BObject) :
    (poseStep cid st kv).scene.objects
      = st.scene.objects ++ [(duplicate_object st.scene kv.2 kv.1).1] ∧
    (poseStep cid st kv).scene.nextId = st.scene.nextId + 1 ∧
    (poseStep cid st kv).effects = st.effects ∧
    (poseStep cid st kv).log = st.log :=
  ⟨rfl, rfl, rfl, rfl⟩

theorem poseFold_spec (cid : Nat) (nm : String) (ms : List (String × BObject)) :
    ∀ (st : St) (base : List Collection) (pids : List Nat),
      IdsBelow st.scene →
      st.scene.collections = base ++ [{ cid := cid, name := nm, objectIds := pids }] →
      (∀ c ∈ base, c.cid ≠ cid) →
      ∃ dups : List BObject,
        (ms.foldl (poseStep cid) st).scene.objects = st.scene.objects ++ dups ∧
        (ms.foldl (poseStep cid) st).scene.collections
          = base ++ [{ cid := cid, name := nm,
                       objectIds := pids ++ dups.map (fun d => d.oid) }] ∧
        dups.map glbProj = glbPayload ms ∧
        dups.map (fun d => d.oid) = List.range' st.scene.nextId ms.length ∧
        (ms.foldl (poseStep cid) st).scene.nextId = st.scene.nextId + ms.length ∧
        IdsBelow (ms.foldl (poseStep cid) st).scene ∧
        (ms.foldl (poseStep cid) st).effects = st.effects ∧
        (ms.foldl (poseStep cid) st).log = st.log := by
  induction ms with
  | nil =>
    intro st base pids hI hcolls hbase
    refine ⟨[], by simp, ?_, rfl, rfl, by simp, hI, rfl, rfl⟩
    simpa using hcolls
  | cons kv t ih =>
    intro st base pids hI hcolls hbase
    rw [List.foldl_cons]
    have hd : (duplicate_object st.scene kv.2 kv.1).1.oid = st.scene.nextId := rfl
    have hdupcolls : (duplicate_object st.scene kv.2 kv.1).2.collections
        = st.scene.collections := rfl
    have hunlinkColl : (unlinkFromAll (duplicate_object st.scene kv.2 kv.1).2
          (duplicate_object st.scene kv.2 kv.1).1.oid).collections
        = st.scene.collections := by
      rw [unlinkFromAll_collections_of]
      · exact hdupcolls
      · intro c hc j hj
        rw [hdupcolls] at hc
        rw [hd]
        exact Nat.ne_of_lt ((hI.2.2 c hc).2 j hj)
    have hstepColl : (poseStep cid st kv).scene.collections
        = base ++ [{ cid := cid, name := nm,
                     objectIds := pids ++ [st.scene.nextId] }] := by
      show (linkToColl (unlinkFromAll (duplicate_object st.scene kv.2 kv.1).2
              (duplicate_object st.scene kv.2 kv.1).1.oid) cid
              (duplicate_object st.scene kv.2 kv.1).1.oid).collections = _
      show ((unlinkFromAll (duplicate_object st.scene kv.2 kv.1).2
              (duplicate_object st.scene kv.2 kv.1).1.oid).collections).map _ = _
      rw [hunlinkColl, hcolls, List.map_append]
      have hb : base.map (fun c => if c.cid == cid then
          { c with objectIds := c.objectIds
              ++ [(duplicate_object st.scene kv.2 kv.1).1.oid] } else c) = base := by
        apply map_self_of
        intro c hc
        simp [beq_eq_false_iff_ne.mpr (hbase c hc)]
      rw [hb]
      simp [hd]
    have hstepIds : IdsBelow (poseStep cid st kv).scene := by
      refine ⟨?_, ?_, ?_⟩
      · intro x hx
        rw [(poseStep_scene cid st kv).1] at hx
        rw [(poseStep_scene cid st kv).2.1]
        rcases List.mem_append.mp hx with hx | hx
        · exact Nat.lt_succ_of_lt (hI.1 x hx)
        · rw [List.mem_singleton.mp hx, hd]
          exact Nat.lt_succ_self _
      · intro j hj
        have : j ∈ (duplicate_object st.scene kv.2 kv.1).2.rootObjects := by
          exact (List.mem_filter.mp hj).1
        rw [(duplicate_object_scene st.scene kv.2 kv.1).2.1] at this
        rw [(poseStep_scene cid st kv).2.1]
        rcases List.mem_append.mp this with hx | hx
        · exact Nat.lt_succ_of_lt (hI.2.1 j hx)
        · rw [List.mem_singleton.mp hx]
          exact Nat.lt_succ_self _
      · intro c hc
        rw [hstepColl] at hc
        rw [(poseStep_scene cid st kv).2.1]
        rcases List.mem_append.mp hc with hc | hc
        · have := hI.2.2 c (by rw [hcolls]; exact List.mem_append_left _ hc)
          exact ⟨Nat.lt_succ_of_lt this.1, fun j hj => Nat.lt_succ_of_lt (this.2 j hj)⟩
        · rw [List.mem_singleton.mp hc]
          have hcoll0 := hI.2.2 { cid := cid, name := nm, objectIds := pids }
            (by rw [hcolls]; exact List.mem_append_right _ (List.mem_singleton_self _))
          refine ⟨Nat.lt_succ_of_lt hcoll0.1, ?_⟩
          intro j hj
          rcases List.mem_append.mp hj with hj | hj
          · exact Nat.lt_succ_of_lt (hcoll0.2 j hj)
          · rw [List.mem_singleton.mp hj]
            exact Nat.lt_succ_self _
    obtain ⟨dups', q1, q2, q3, q4, q5, q6, q7, q8⟩ :=
      ih (poseStep cid st kv) base (pids ++ [st.scene.nextId]) hstepIds hstepColl hbase
    refine ⟨(duplicate_object st.scene kv.2 kv.1).1 :: dups', ?_, ?_, ?_, ?_, ?_, q6,
            ?_, ?_⟩
    · rw [q1, (poseStep_scene cid st kv).1]
      simp
    · rw [q2]
      simp [hd, List.append_assoc]
    · rw [List.map_cons, q3]
      rfl
    · rw [List.map_cons, q4, hd, (poseStep_scene cid st kv).2.1, List.length_cons,
          List.range'_succ]
    · rw [q5, (poseStep_scene cid st kv).2.1, List.length_cons]
      omega
    · rw [q7, (poseStep_scene cid st kv).2.2.1]
    · rw [q8, (poseStep_scene cid st kv).2.2.2]

theorem create_pose_spec (st : St) (ms : List (String × BObject)) (pose : String)
    (h : IdsBelow st.scene) :
    ∃ dups : List BObject,
      (create_pose_collection st ms pose).1 = st.scene.nextId ∧
      (create_pose_collection st ms pose).2.scene.objects
        = st.scene.objects ++ dups ∧
      (create_pose_collection st ms pose).2.scene.collections
        = st.scene.collections
          ++ [{ cid := st.scene.nextId, name := "HumanLayer_" ++ pose,
                objectIds := dups.map (fun d => d.oid) }] ∧
      dups.map glbProj = glbPayload ms ∧
      dups.map (fun d => d.oid) = List.range' (st.scene.nextId + 1) ms.length ∧
      (create_pose_collection st ms pose).2.scene.nextId
        = st.scene.nextId + 1 + ms.length ∧
      IdsBelow (create_pose_collection st ms pose).2.scene ∧
      (create_pose_collection st ms pose).2.effects = st.effects ∧
      (∃ es, (create_pose_collection st ms pose).2.log = st.log ++ es ∧
        es.all benignEntry = true) := by
  have hst1Ids : IdsBelow { st.scene with
      collections := st.scene.collections
        ++ [{ cid := st.scene.nextId, name := "HumanLayer_" ++ pose, objectIds := [] }],
      nextId := st.scene.nextId + 1 } := by
    refine ⟨?_, ?_, ?_⟩
    · intro x hx
      exact Nat.lt_succ_of_lt (h.1 x hx)
    · intro j hj
      exact Nat.lt_succ_of_lt (h.2.1 j hj)
    · intro c hc
      rcases List.mem_append.mp hc with hc | hc
      · have := h.2.2 c hc
        exact ⟨Nat.lt_succ_of_lt this.1, fun j hj => Nat.lt_succ_of_lt (this.2 j hj)⟩
      · rw [List.mem_singleton.mp hc]
        exact ⟨Nat.lt_succ_self _, by simp⟩
  obtain ⟨dups, q1, q2, q3, q4, q5, q6, q7, q8⟩ :=
    poseFold_spec st.scene.nextId ("HumanLayer_" ++ pose) ms
      { st with
        scene := { st.scene with
          collections := st.scene.collections
            ++ [{ cid := st.scene.nextId, name := "HumanLayer_" ++ pose,
                  objectIds := [] }],
          nextId := st.scene.nextId + 1 },
        log := st.log ++ [LogEntry.msg "INFO"
          ("Creating " ++ pose ++ " pose collection...")] }
      st.scene.collections [] hst1Ids rfl
      (fun c hc => Nat.ne_of_lt (h.2.2 c hc).1)
  have he : (create_pose_collection st ms pose).2
      = ms.foldl (poseStep st.scene.nextId)
          { st with
            scene := { st.scene with
              collections := st.scene.collections
                ++ [{ cid := st.scene.nextId, name := "HumanLayer_" ++ pose,
                      objectIds := [] }],
              nextId := st.scene.nextId + 1 },
            log := st.log ++ [LogEntry.msg "INFO"
              ("Creating " ++ pose ++ " pose collection...")] } := rfl
  refine ⟨dups, rfl, ?_, ?_, q3, ?_, ?_, ?_, ?_, ?_⟩
  · rw [he]
    exact q1
  · rw [he]
    simpa using q2
  · exact q4
  · rw [he]
    exact q5
  · rw [he]
    exact q6
  · rw [he]
    exact q7
  · rw [he]
    exact ⟨[LogEntry.msg "INFO" ("Creating " ++ pose ++ " pose collection...")], q8,
           by simp [benignEntry]⟩

/-! ### Lookup-resolution lemmas -/

theorem filterMap_eq_self_of {α β : Type _} (l : List α) (g : α → β)
    (f : β → Option α) (h : ∀ a ∈ l, f (g a) = some a) :
    (l.map g).filterMap f = l := by
  induction l with
  | nil => rfl
  | cons a t ih =>
    rw [List.map_cons, List.filterMap_cons, h a (List.mem_cons_self a t)]
    rw [ih (fun b hb => h b (List.mem_cons_of_mem a hb))]

theorem find?_oid_self (dups : List BObject)
    (hnd : (dups.map (fun d => d.oid)).Nodup) :
    ∀ d ∈ dups, dups.find? (fun o => o.oid == d.oid) = some d := by
  induction dups with
  | nil => intro d hd; cases hd
  | cons a t ih =>
    rw [List.map_cons] at hnd
    have hnd' := List.nodup_cons.mp hnd
    intro d hd
    rcases List.mem_cons.mp hd with rfl | hd
    · rw [List.find?_cons_of_pos _ (by simp)]
    · have hne : (a.oid == d.oid) = false := by
        apply beq_eq_false_iff_ne.mpr
        intro e
        exact hnd'.1 (e ▸ List.mem_map_of_mem _ hd)
      rw [List.find?_cons_of_neg _ (by simp [hne])]
      exact ih hnd'.2 d hd

theorem resolve_dups (A dups B : List BObject) (s : Scene)
    (hobj : s.objects = A ++ dups ++ B)
    (hA : ∀ o ∈ A, ∀ d ∈ dups, o.oid ≠ d.oid)
    (hnd : (dups.map (fun d => d.oid)).Nodup) :
    (dups.map (fun d => d.oid)).filterMap (findObj s) = dups := by
  apply filterMap_eq_self_of
  intro d hd
  show s.objects.find? (fun o => o.oid == d.oid) = some d
  rw [hobj]
  apply find?_append_some
  rw [find?_append_none _ (fun o ho => by simp [hA o ho d hd])]
  exact find?_oid_self dups hnd d hd

theorem findColl_at (s : Scene) (pre : List Collection) (c : Collection)
    (post : List Collection) (i : Nat) (hcolls : s.collections = pre ++ c :: post)
    (hcid : c.cid = i) (hpre : ∀ c' ∈ pre, c'.cid ≠ i) :
    findColl s i = some c := by
  show s.collections.find? (fun x => x.cid == i) = some c
  rw [hcolls]
  rw [find?_append_none _ (fun c' hc' => by simp [hpre c' hc'])]
  rw [List.find?_cons_of_pos _ (by simp [hcid])]

/-! ### The fault-free body -/

theorem tryBody_none_eq (st0 : St) (D : String) :
    tryBody none st0 D = .ok (bodySt7 st0 D) := rfl

theorem export_glb_parts (st : St) (cid : Nat) (path : String) :
    (export_collection_to_glb st cid path).effects
      = st.effects
        ++ [Effect.exportGlb path ((objectsOfColl st.scene cid).map glbProj)] ∧
    (export_collection_to_glb st cid path).scene = st.scene ∧
    (∃ es, (export_collection_to_glb st cid path).log = st.log ++ es ∧
      es.all benignEntry = true) :=
  ⟨rfl, rfl, ⟨_, rfl, by simp [benignEntry]⟩⟩

set_option maxHeartbeats 2000000 in
theorem bodySt7_spec (st0 : St) (D : String) (h : IdsBelow st0.scene) :
    (bodySt7 st0 D).effects
      = st0.effects
        ++ [Effect.exportGlb (joinPath D "pose-open.glb")
              (glbPayload (bodyE3 st0).1),
            Effect.exportGlb (joinPath D "pose-closed.glb")
              (glbPayload (bodyE3 st0).1)] ∧
    (bodyE3 st0).1.map Prod.fst = ["Body", "Veins", "Brain", "Heart"] := by
  obtain ⟨xkv, xnext, xib, xef, xlog, xobj, xco, xph⟩ := extract_spec st0 h
  have hkeys1 : (bodyE1 st0).1.map Prod.fst = ["Body", "Veins", "Brain", "Heart"] := by
    show (extract_anatomy_meshes st0).1.map Prod.fst = _
    rw [extract_unfold]
    rfl
  have hb2 : bodyE2 st0
      = (bodyE1 st0).1.foldl processStep ([], (bodyE1 st0).2) := rfl
  obtain ⟨vsP, pP1, pP2, pP3, pPef, pPco, pPn, pProot, pPlog, pPib, pPobj⟩ :=
    processFold_spec (bodyE1 st0).1 (bodyE1 st0).2 []
  have hb3 : bodyE3 st0
      = (bodyE2 st0).1.foldl centerStep ([], (bodyE2 st0).2) := rfl
  obtain ⟨vsC, pC1, pC2, pC3, pCef, pCco, pCn, pClog, pCib, pCobj⟩ :=
    centerFold_spec (bodyE2 st0).1 (bodyE2 st0).2 []
  have hk2 : (bodyE2 st0).1.map Prod.fst = (bodyE1 st0).1.map Prod.fst := by
    rw [hb2, pP1]
    simpa using pP2
  have hk3 : (bodyE3 st0).1.map Prod.fst = (bodyE2 st0).1.map Prod.fst := by
    rw [hb3, pC1]
    simpa using pC2
  have ibE1 : IdsBelow (bodyE1 st0).2.scene := xib
  have ibE2 : IdsBelow (bodyE2 st0).2.scene := by
    rw [hb2]
    exact pPib ibE1
  have ibE3 : IdsBelow (bodyE3 st0).2.scene := by
    rw [hb3]
    exact pCib ibE2
  have hc1 : bodyC1 st0
      = create_pose_collection (bodyE3 st0).2 (bodyE3 st0).1 "open" := rfl
  obtain ⟨dupsO, o1, o2, o3, o4, o5, o6, o7, o8, o9⟩ :=
    create_pose_spec (bodyE3 st0).2 (bodyE3 st0).1 "open" ibE3
  rw [← hc1] at o1 o2 o3 o6 o7 o8
  have hc2 : bodyC2 st0
      = create_pose_collection (bodyC1 st0).2 (bodyE3 st0).1 "closed" := rfl
  obtain ⟨dupsC, c1, c2, c3, c4, c5, c6, c7, c8, c9⟩ :=
    create_pose_spec (bodyC1 st0).2 (bodyE3 st0).1 "closed" o7
  rw [← hc2] at c1 c2 c3 c6 c7 c8
  -- id bounds
  have hlenO : dupsO.length = (bodyE3 st0).1.length := by
    have := congrArg List.length o5
    simpa using this
  have hdupsOlow : ∀ d ∈ dupsO, (bodyE3 st0).2.scene.nextId + 1 ≤ d.oid := by
    intro d hd
    have : d.oid ∈ List.range' ((bodyE3 st0).2.scene.nextId + 1)
        (bodyE3 st0).1.length := by
      rw [← o5]
      exact List.mem_map_of_mem _ hd
    exact (List.mem_range'_1.mp this).1
  have hdupsOhigh : ∀ d ∈ dupsO,
      d.oid < (bodyC1 st0).2.scene.nextId := by
    intro d hd
    have hm : d.oid ∈ List.range' ((bodyE3 st0).2.scene.nextId + 1)
        (bodyE3 st0).1.length := by
      rw [← o5]
      exact List.mem_map_of_mem _ hd
    rw [o6]
    exact (List.mem_range'_1.mp hm).2
  have hdupsClow : ∀ d ∈ dupsC, (bodyC1 st0).2.scene.nextId + 1 ≤ d.oid := by
    intro d hd
    have hm : d.oid ∈ List.range' ((bodyC1 st0).2.scene.nextId + 1)
        (bodyE3 st0).1.length := by
      rw [← c5]
      exact List.mem_map_of_mem _ hd
    exact (List.mem_range'_1.mp hm).1
  have hobjAll : (bodyC2 st0).2.scene.objects
      = (bodyE3 st0).2.scene.objects ++ dupsO ++ dupsC := by
    rw [c2, o2]
  have hndO : (dupsO.map (fun d => d.oid)).Nodup := by
    rw [o5]
    exact List.nodup_range' _ _
  have hndC : (dupsC.map (fun d => d.oid)).Nodup := by
    rw [c5]
    exact List.nodup_range' _ _
  have hcolls1 : (bodyC2 st0).2.scene.collections
      = (bodyE3 st0).2.scene.collections
        ++ ({ cid := (bodyE3 st0).2.scene.nextId, name := "HumanLayer_" ++ "open",
              objectIds := dupsO.map (fun d => d.oid) } : Collection)
           :: [{ cid := (bodyC1 st0).2.scene.nextId, name := "HumanLayer_" ++ "closed",
                 objectIds := dupsC.map (fun d => d.oid) }] := by
    rw [c3, o3]
    simp
  have hpre1 : ∀ c' ∈ (bodyE3 st0).2.scene.collections,
      c'.cid ≠ (bodyE3 st0).2.scene.nextId :=
    fun c' hc' => Nat.ne_of_lt (ibE3.2.2 c' hc').1
  have hfc1 : findColl (bodyC2 st0).2.scene (bodyE3 st0).2.scene.nextId
      = some { cid := (bodyE3 st0).2.scene.nextId, name := "HumanLayer_" ++ "open",
               objectIds := dupsO.map (fun d => d.oid) } :=
    findColl_at (bodyC2 st0).2.scene (bodyE3 st0).2.scene.collections
      { cid := (bodyE3 st0).2.scene.nextId, name := "HumanLayer_" ++ "open",
        objectIds := dupsO.map (fun d => d.oid) }
      [{ cid := (bodyC1 st0).2.scene.nextId, name := "HumanLayer_" ++ "closed",
         objectIds := dupsC.map (fun d => d.oid) }]
      (bodyE3 st0).2.scene.nextId hcolls1 rfl hpre1
  have hcolls2 : (bodyC2 st0).2.scene.collections
      = ((bodyE3 st0).2.scene.collections
          ++ [{ cid := (bodyE3 st0).2.scene.nextId, name := "HumanLayer_" ++ "open",
                objectIds := dupsO.map (fun d => d.oid) }])
        ++ ({ cid := (bodyC1 st0).2.scene.nextId, name := "HumanLayer_" ++ "closed",
              objectIds := dupsC.map (fun d => d.oid) } : Collection) :: [] := by
    rw [c3, o3]
  have hneq23 : (bodyE3 st0).2.scene.nextId ≠ (bodyC1 st0).2.scene.nextId := by
    rw [o6]
    omega
  have hpre2 : ∀ c' ∈ (bodyE3 st0).2.scene.collections
        ++ [{ cid := (bodyE3 st0).2.scene.nextId, name := "HumanLayer_" ++ "open",
              objectIds := dupsO.map (fun d => d.oid) }],
      c'.cid ≠ (bodyC1 st0).2.scene.nextId := by
    intro c' hc'
    rcases List.mem_append.mp hc' with hc' | hc'
    · have hlt := (ibE3.2.2 c' hc').1
      rw [o6]
      omega
    · rw [List.mem_singleton.mp hc']
      exact hneq23
  have hfc2 : findColl (bodyC2 st0).2.scene (bodyC1 st0).2.scene.nextId
      = some { cid := (bodyC1 st0).2.scene.nextId, name := "HumanLayer_" ++ "closed",
               objectIds := dupsC.map (fun d => d.oid) } :=
    findColl_at (bodyC2 st0).2.scene
      ((bodyE3 st0).2.scene.collections
        ++ [{ cid := (bodyE3 st0).2.scene.nextId, name := "HumanLayer_" ++ "open",
              objectIds := dupsO.map (fun d => d.oid) }])
      { cid := (bodyC1 st0).2.scene.nextId, name := "HumanLayer_" ++ "closed",
        objectIds := dupsC.map (fun d => d.oid) } []
      (bodyC1 st0).2.scene.nextId hcolls2 rfl hpre2
  have hAopen : ∀ o ∈ (bodyE3 st0).2.scene.objects, ∀ d ∈ dupsO, o.oid ≠ d.oid := by
    intro o ho d hd
    have h1 := ibE3.1 o ho
    have h2 := hdupsOlow d hd
    omega
  have hAclosed : ∀ o ∈ (bodyE3 st0).2.scene.objects ++ dupsO, ∀ d ∈ dupsC,
      o.oid ≠ d.oid := by
    intro o ho d hd
    have h2 := hdupsClow d hd
    rcases List.mem_append.mp ho with ho | ho
    · have h1 := ibE3.1 o ho
      have h3 : (bodyE3 st0).2.scene.nextId < (bodyC1 st0).2.scene.nextId := by
        rw [o6]
        omega
      omega
    · have h1 := hdupsOhigh o ho
      omega
  have hres1 : (objectsOfColl (bodyC2 st0).2.scene (bodyC1 st0).1).map glbProj
      = glbPayload (bodyE3 st0).1 := by
    rw [o1]
    simp only [objectsOfColl, hfc1]
    rw [resolve_dups (bodyE3 st0).2.scene.objects dupsO dupsC _ hobjAll hAopen hndO]
    exact o4
  have hobjAll2 : (bodyC2 st0).2.scene.objects
      = ((bodyE3 st0).2.scene.objects ++ dupsO) ++ dupsC ++ [] := by
    rw [List.append_nil]
    exact hobjAll
  have hres2 : (objectsOfColl (bodyC2 st0).2.scene (bodyC2 st0).1).map glbProj
      = glbPayload (bodyE3 st0).1 := by
    rw [c1]
    simp only [objectsOfColl, hfc2]
    rw [resolve_dups ((bodyE3 st0).2.scene.objects ++ dupsO) dupsC [] _ hobjAll2
        hAclosed hndC]
    exact c4
  have h6 : (bodySt6 st0 D).effects
      = (bodyC2 st0).2.effects
        ++ [Effect.exportGlb (joinPath D "pose-open.glb")
              ((objectsOfColl (bodyC2 st0).2.scene (bodyC1 st0).1).map glbProj)] :=
    (export_glb_parts (bodyC2 st0).2 (bodyC1 st0).1 (joinPath D "pose-open.glb")).1
  have hsc : (bodySt6 st0 D).scene = (bodyC2 st0).2.scene := rfl
  have h7 : (bodySt7 st0 D).effects
      = (bodySt6 st0 D).effects
        ++ [Effect.exportGlb (joinPath D "pose-closed.glb")
              ((objectsOfColl (bodySt6 st0 D).scene (bodyC2 st0).1).map glbProj)] :=
    (export_glb_parts (bodySt6 st0 D) (bodyC2 st0).1 (joinPath D "pose-closed.glb")).1
  have hefC : (bodyE3 st0).2.effects = (bodyE2 st0).2.effects := by
    rw [hb3]
    exact pCef
  have hefP : (bodyE2 st0).2.effects = (bodyE1 st0).2.effects := by
    rw [hb2]
    exact pPef
  have hefE : (bodyE1 st0).2.effects = st0.effects := xef
  constructor
  · rw [h7, hsc, h6, hres1, hres2, c8, o8, hefC, hefP, hefE]
    simp
  · rw [hk3, hk2, hkeys1]


/-! ### cleanup_scene lemmas -/

theorem cleanupStep_objects (s : Scene) (c : Collection) :
    (cleanupStep s c).objects = s.objects ∨
    (cleanupStep s c).objects
      = s.objects.filter (fun o => !c.objectIds.contains o.oid) := by
  unfold cleanupStep
  split
  · right
    show (c.objectIds.foldl removeObject s).objects = _
    exact removeFold_objects c.objectIds s
  · left
    rfl

theorem cleanupStep_objects_HL (s : Scene) (c : Collection)
    (hn : nameStarts "HumanLayer_" c.name = true) :
    (cleanupStep s c).objects
      = s.objects.filter (fun o => !c.objectIds.contains o.oid) := by
  unfold cleanupStep
  rw [if_pos hn]
  show (c.objectIds.foldl removeObject s).objects = _
  exact removeFold_objects c.objectIds s

theorem cleanupStep_objects_not (s : Scene) (c : Collection)
    (hn : nameStarts "HumanLayer_" c.name = false) :
    cleanupStep s c = s := by
  unfold cleanupStep
  rw [if_neg (by simp [hn])]

theorem map_collKey_update (f : Collection → List Nat) :
    ∀ l : List Collection,
      (l.map (fun c => { c with objectIds := f c })).map collKey = l.map collKey := by
  intro l
  induction l with
  | nil => rfl
  | cons a t ih =>
    simp only [List.map_cons] at *
    rw [ih]
    rfl

theorem removeObject_keys (s : Scene) (i : Nat) :
    (removeObject s i).collections.map collKey = s.collections.map collKey :=
  map_collKey_update (fun c => c.objectIds.filter (fun j => j != i)) s.collections

theorem removeFold_keys (remIds : List Nat) :
    ∀ s : Scene, (remIds.foldl removeObject s).collections.map collKey
      = s.collections.map collKey := by
  induction remIds with
  | nil => intro s; rfl
  | cons i t ih => intro s; rw [List.foldl_cons, ih, removeObject_keys]

theorem cleanupStep_keys (s : Scene) (c : Collection) :
    ∀ p ∈ (cleanupStep s c).collections.map collKey,
      p ∈ s.collections.map collKey ∧
      (nameStarts "HumanLayer_" c.name = true → p.1 ≠ c.cid) := by
  intro p hp
  by_cases hn : nameStarts "HumanLayer_" c.name
  · unfold cleanupStep at hp
    rw [if_pos hn] at hp
    have hp2 : p ∈ ((c.objectIds.foldl removeObject s).collections.filter
        (fun c' => c'.cid != c.cid)).map collKey := hp
    obtain ⟨c', hc', hck⟩ := List.mem_map.mp hp2
    have hc'mem := (List.mem_filter.mp hc').1
    have hcid := (List.mem_filter.mp hc').2
    constructor
    · rw [← removeFold_keys c.objectIds s]
      exact hck ▸ List.mem_map_of_mem collKey hc'mem
    · intro _
      rw [← hck]
      show c'.cid ≠ c.cid
      simpa using hcid
  · rw [cleanupStep_objects_not s c (by simpa using hn)] at hp
    exact ⟨hp, fun ht => absurd ht hn⟩

theorem cleanupFold_objects_sub (L : List Collection) :
    ∀ s : Scene, ∀ o ∈ (L.foldl cleanupStep s).objects, o ∈ s.objects := by
  induction L with
  | nil => intro s o ho; exact ho
  | cons a t ih =>
    intro s o ho
    rw [List.foldl_cons] at ho
    have h1 := ih (cleanupStep s a) o ho
    rcases cleanupStep_objects s a with he | he
    · rwa [he] at h1
    · rw [he] at h1
      exact List.mem_of_mem_filter h1

theorem cleanupFold_keys_sub (L : List Collection) :
    ∀ s : Scene, ∀ p ∈ (L.foldl cleanupStep s).collections.map collKey,
      p ∈ s.collections.map collKey := by
  induction L with
  | nil => intro s p hp; exact hp
  | cons a t ih =>
    intro s p hp
    rw [List.foldl_cons] at hp
    exact (cleanupStep_keys s a p (ih (cleanupStep s a) p hp)).1

theorem cleanupFold_kills (L : List Collection) :
    ∀ (s : Scene) (c : Collection), c ∈ L →
      nameStarts "HumanLayer_" c.name = true →
      ∀ o ∈ (L.foldl cleanupStep s).objects, o.oid ∉ c.objectIds := by
  induction L with
  | nil => intro s c hc; cases hc
  | cons a t ih =>
    intro s c hc hn o ho
    rw [List.foldl_cons] at ho
    rcases List.mem_cons.mp hc with hceq | hc
    · subst hceq
      have hsub := cleanupFold_objects_sub t (cleanupStep s c) o ho
      rw [cleanupStep_objects_HL s c hn] at hsub
      intro hmem
      have hflt := List.of_mem_filter hsub
      simp only [Bool.not_eq_true'] at hflt
      rw [List.contains_eq_any_beq] at hflt
      have hany : c.objectIds.any (o.oid == ·) = true :=
        List.any_eq_true.mpr ⟨o.oid, hmem, by simp⟩
      rw [hany] at hflt
      cases hflt
    · exact ih (cleanupStep s a) c hc hn o ho

theorem cleanupFold_keys_kill (L : List Collection) :
    ∀ (s : Scene) (c : Collection), c ∈ L →
      nameStarts "HumanLayer_" c.name = true →
      ∀ p ∈ (L.foldl cleanupStep s).collections.map collKey, p.1 ≠ c.cid := by
  induction L with
  | nil => intro s c hc; cases hc
  | cons a t ih =>
    intro s c hc hn p hp
    rw [List.foldl_cons] at hp
    rcases List.mem_cons.mp hc with hceq | hc
    · subst hceq
      exact (cleanupStep_keys s c p
        (cleanupFold_keys_sub t (cleanupStep s c) p hp)).2 hn
    · exact ih (cleanupStep s a) c hc hn p hp

theorem cleanup_no_HL (s : Scene) :
    ∀ c' ∈ (cleanup_scene s).collections,
      nameStarts "HumanLayer_" c'.name = false := by
  intro c' hc'
  by_contra hB
  have hT : nameStarts "HumanLayer_" c'.name = true := by
    cases hE : nameStarts "HumanLayer_" c'.name
    · exact absurd hE hB
    · rfl
  have hp : collKey c' ∈ (cleanup_scene s).collections.map collKey :=
    List.mem_map_of_mem collKey hc'
  have hp0 : collKey c' ∈ s.collections.map collKey :=
    cleanupFold_keys_sub s.collections s (collKey c') hp
  obtain ⟨c0, hc0, hk⟩ := List.mem_map.mp hp0
  have hkname : c0.name = c'.name := congrArg Prod.snd hk
  have hkcid : c0.cid = c'.cid := congrArg Prod.fst hk
  have hkill := cleanupFold_keys_kill s.collections s c0 hc0
    (by rw [hkname]; exact hT) (collKey c') hp
  exact hkill hkcid.symm

theorem cleanupFold_keeps (N : Nat) (L : List Collection) :
    ∀ s : Scene,
      (∀ c ∈ L, nameStarts "HumanLayer_" c.name = false ∨
        ∀ i ∈ c.objectIds, N ≤ i) →
      ∀ o ∈ s.objects, o.oid < N → o ∈ (L.foldl cleanupStep s).objects := by
  induction L with
  | nil => intro s _ o ho _; exact ho
  | cons a t ih =>
    intro s hL o ho hlt
    rw [List.foldl_cons]
    refine ih (cleanupStep s a) (fun c hc => hL c (List.mem_cons_of_mem a hc)) o ?_ hlt
    rcases hL a (List.mem_cons_self a t) with hn | hb
    · rw [cleanupStep_objects_not s a hn]
      exact ho
    · rcases cleanupStep_objects s a with he | he
      · rw [he]
        exact ho
      · rw [he]
        refine List.mem_filter.mpr ⟨ho, ?_⟩
        have hno : o.oid ∉ a.objectIds := fun hm => (Nat.not_lt.mpr (hb o.oid hm)) hlt
        simpa using hno

/-! ### main plumbing -/

theorem mainRun_parts (fault : Option (Nat × String)) (argv : List String)
    (scene0 : Scene) :
    (mainRun fault argv scene0).exitCode = (mainPreCleanup fault argv scene0).1 ∧
    (mainRun fault argv scene0).st.scene
      = cleanup_scene (mainPreCleanup fault argv scene0).2.scene ∧
    (mainRun fault argv scene0).st.effects
      = (mainPreCleanup fault argv scene0).2.effects ∧
    (mainRun fault argv scene0).st.log = (mainPreCleanup fault argv scene0).2.log :=
  ⟨rfl, rfl, rfl, rfl⟩

theorem mainPreCleanup_scene (fault : Option (Nat × String)) (argv : List String)
    (scene0 : Scene) :
    (mainPreCleanup fault argv scene0).2.scene
      = (tryOut (tryBody fault (initSt argv scene0) (outputDirOf argv))).scene ∧
    (mainPreCleanup fault argv scene0).2.effects
      = (tryOut (tryBody fault (initSt argv scene0) (outputDirOf argv))).effects := by
  unfold mainPreCleanup tryOut
  cases tryBody fault (initSt argv scene0) (outputDirOf argv) with
  | error em => exact ⟨rfl, rfl⟩
  | ok st2 => exact ⟨rfl, rfl⟩

theorem tryBody_cases (fault : Option (Nat × String)) (st0 : St) (D : String) :
    tryBody fault st0 D = Except.ok (bodySt7 st0 D) ∨
    ∃ m, tryBody fault st0 D = Except.error (m, st0) ∨
      tryBody fault st0 D = Except.error (m, (bodyE1 st0).2) ∨
      tryBody fault st0 D = Except.error (m, (bodyE2 st0).2) ∨
      tryBody fault st0 D = Except.error (m, (bodyE3 st0).2) ∨
      tryBody fault st0 D = Except.error (m, (bodyC1 st0).2) ∨
      tryBody fault st0 D = Except.error (m, (bodyC2 st0).2) ∨
      tryBody fault st0 D = Except.error (m, bodySt6 st0 D) := by
  match fault with
  | none => exact Or.inl rfl
  | some (0, m) => exact Or.inr ⟨m, Or.inl rfl⟩
  | some (1, m) => exact Or.inr ⟨m, Or.inr (Or.inl rfl)⟩
  | some (2, m) => exact Or.inr ⟨m, Or.inr (Or.inr (Or.inl rfl))⟩
  | some (3, m) => exact Or.inr ⟨m, Or.inr (Or.inr (Or.inr (Or.inl rfl)))⟩
  | some (4, m) => exact Or.inr ⟨m, Or.inr (Or.inr (Or.inr (Or.inr (Or.inl rfl))))⟩
  | some (5, m) =>
      exact Or.inr ⟨m, Or.inr (Or.inr (Or.inr (Or.inr (Or.inr (Or.inl rfl)))))⟩
  | some (6, m) =>
      exact Or.inr ⟨m, Or.inr (Or.inr (Or.inr (Or.inr (Or.inr (Or.inr rfl)))))⟩
  | some (j + 7, m) => exact Or.inl rfl


/-! ### The state at the end of the try block, for every fault -/

theorem tryOut_ok (st : St) : tryOut (Except.ok st) = st := rfl

theorem tryOut_error (e : String) (st : St) : tryOut (Except.error (e, st)) = st := rfl

set_option maxHeartbeats 2000000 in
theorem tryOut_spec (fault : Option (Nat × String)) (st0 : St) (D : String)
    (h : IdsBelow st0.scene) :
    ∃ (extra : List Collection) (tail : List Effect),
      (tryOut (tryBody fault st0 D)).scene.collections
        = st0.scene.collections ++ extra ∧
      (∀ c ∈ extra, nameStarts "HumanLayer_" c.name = true ∧
        ∀ i ∈ c.objectIds, st0.scene.nextId ≤ i) ∧
      (∀ o ∈ st0.scene.objects, o ∈ (tryOut (tryBody fault st0 D)).scene.objects) ∧
      (tryOut (tryBody fault st0 D)).effects = st0.effects ++ tail ∧
      (∀ e ∈ tail, ∃ objs,
        e = Effect.exportGlb (joinPath D "pose-open.glb") objs ∨
        e = Effect.exportGlb (joinPath D "pose-closed.glb") objs) := by
  obtain ⟨xkv, xnext, xib, xef, xlog, xobj, xco, xph⟩ := extract_spec st0 h
  obtain ⟨added, xob, xadd⟩ := xobj
  have hb2 : bodyE2 st0
      = (bodyE1 st0).1.foldl processStep ([], (bodyE1 st0).2) := rfl
  obtain ⟨vsP, pP1, pP2, pP3, pPef, pPco, pPn, pProot, pPlog, pPib, pPobj⟩ :=
    processFold_spec (bodyE1 st0).1 (bodyE1 st0).2 []
  have hb3 : bodyE3 st0
      = (bodyE2 st0).1.foldl centerStep ([], (bodyE2 st0).2) := rfl
  obtain ⟨vsC, pC1, pC2, pC3, pCef, pCco, pCn, pClog, pCib, pCobj⟩ :=
    centerFold_spec (bodyE2 st0).1 (bodyE2 st0).2 []
  have ibE1 : IdsBelow (bodyE1 st0).2.scene := xib
  have ibE2 : IdsBelow (bodyE2 st0).2.scene := by
    rw [hb2]
    exact pPib ibE1
  have ibE3 : IdsBelow (bodyE3 st0).2.scene := by
    rw [hb3]
    exact pCib ibE2
  have efE1 : (bodyE1 st0).2.effects = st0.effects := xef
  have efE2 : (bodyE2 st0).2.effects = st0.effects := by
    rw [hb2, pPef]
    exact xef
  have efE3 : (bodyE3 st0).2.effects = st0.effects := by
    rw [hb3, pCef]
    exact efE2
  have nE2 : st0.scene.nextId ≤ (bodyE2 st0).2.scene.nextId := by
    rw [hb2, pPn]
    exact xnext
  have nE3 : st0.scene.nextId ≤ (bodyE3 st0).2.scene.nextId := by
    rw [hb3, pCn]
    exact nE2
  have coE1 : (bodyE1 st0).2.scene.collections = st0.scene.collections := xco
  have coE2 : (bodyE2 st0).2.scene.collections = st0.scene.collections := by
    rw [hb2, pPco]
    exact coE1
  have coE3 : (bodyE3 st0).2.scene.collections = st0.scene.collections := by
    rw [hb3, pCco]
    exact coE2
  have keepE1 : ∀ o ∈ st0.scene.objects, o ∈ (bodyE1 st0).2.scene.objects := by
    intro o ho
    show o ∈ (extract_anatomy_meshes st0).2.scene.objects
    rw [xob]
    exact List.mem_append_left added ho
  have bndE1 : ∀ kv ∈ (bodyE1 st0).1, st0.scene.nextId ≤ kv.2.oid :=
    fun kv hkv => (xkv kv hkv).2.2
  have bndE2 : ∀ kv ∈ (bodyE2 st0).1, st0.scene.nextId ≤ kv.2.oid := by
    intro kv hkv
    rw [hb2, pP1] at hkv
    simp only [List.nil_append] at hkv
    obtain ⟨kv0, hkv0, hoid⟩ := pP3 kv hkv
    rw [hoid]
    exact bndE1 kv0 hkv0
  have keepE2 : ∀ o ∈ st0.scene.objects, o ∈ (bodyE2 st0).2.scene.objects := by
    intro o ho
    rw [hb2]
    refine pPobj o (keepE1 o ho) ?_
    intro kv hkv
    have h1 := bndE1 kv hkv
    have h2 := h.1 o ho
    omega
  have keepE3 : ∀ o ∈ st0.scene.objects, o ∈ (bodyE3 st0).2.scene.objects := by
    intro o ho
    rw [hb3]
    refine pCobj o (keepE2 o ho) ?_
    intro kv hkv
    have h1 := bndE2 kv hkv
    have h2 := h.1 o ho
    omega
  have hc1 : bodyC1 st0
      = create_pose_collection (bodyE3 st0).2 (bodyE3 st0).1 "open" := rfl
  obtain ⟨dupsO, o1, o2, o3, o4, o5, o6, o7, o8, o9⟩ :=
    create_pose_spec (bodyE3 st0).2 (bodyE3 st0).1 "open" ibE3
  rw [← hc1] at o1 o2 o3 o6 o7 o8
  have hc2 : bodyC2 st0
      = create_pose_collection (bodyC1 st0).2 (bodyE3 st0).1 "closed" := rfl
  obtain ⟨dupsC, c1, c2, c3, c4, c5, c6, c7, c8, c9⟩ :=
    create_pose_spec (bodyC1 st0).2 (bodyE3 st0).1 "closed" o7
  rw [← hc2] at c1 c2 c3 c6 c7 c8
  have coC1 : (bodyC1 st0).2.scene.collections
      = st0.scene.collections
        ++ [{ cid := (bodyE3 st0).2.scene.nextId, name := "HumanLayer_" ++ "open",
              objectIds := dupsO.map (fun d => d.oid) }] := by
    rw [o3, coE3]
  have keepC1 : ∀ o ∈ st0.scene.objects, o ∈ (bodyC1 st0).2.scene.objects := by
    intro o ho
    rw [o2]
    exact List.mem_append_left dupsO (keepE3 o ho)
  have efC1 : (bodyC1 st0).2.effects = st0.effects := by
    rw [o8]
    exact efE3
  have memO : ∀ i ∈ dupsO.map (fun d => d.oid), st0.scene.nextId ≤ i := by
    intro i hi
    rw [o5] at hi
    have h1 := (List.mem_range'_1.mp hi).1
    have h2 := nE3
    omega
  have coC2 : (bodyC2 st0).2.scene.collections
      = st0.scene.collections
        ++ [{ cid := (bodyE3 st0).2.scene.nextId, name := "HumanLayer_" ++ "open",
              objectIds := dupsO.map (fun d => d.oid) },
            { cid := (bodyC1 st0).2.scene.nextId, name := "HumanLayer_" ++ "closed",
              objectIds := dupsC.map (fun d => d.oid) }] := by
    rw [c3, coC1]
    simp
  have keepC2 : ∀ o ∈ st0.scene.objects, o ∈ (bodyC2 st0).2.scene.objects := by
    intro o ho
    rw [c2]
    exact List.mem_append_left dupsC (keepC1 o ho)
  have efC2 : (bodyC2 st0).2.effects = st0.effects := by
    rw [c8]
    exact efC1
  have memC : ∀ i ∈ dupsC.map (fun d => d.oid), st0.scene.nextId ≤ i := by
    intro i hi
    rw [c5] at hi
    have h1 := (List.mem_range'_1.mp hi).1
    have h2 := nE3
    have h3 : (bodyC1 st0).2.scene.nextId
        = (bodyE3 st0).2.scene.nextId + 1 + (bodyE3 st0).1.length := o6
    omega
  have hHLo : nameStarts "HumanLayer_" ("HumanLayer_" ++ "open") = true := by decide
  have hHLc : nameStarts "HumanLayer_" ("HumanLayer_" ++ "closed") = true := by decide
  have h6ef : (bodySt6 st0 D).effects
      = (bodyC2 st0).2.effects
        ++ [Effect.exportGlb (joinPath D "pose-open.glb")
              ((objectsOfColl (bodyC2 st0).2.scene (bodyC1 st0).1).map glbProj)] :=
    (export_glb_parts (bodyC2 st0).2 (bodyC1 st0).1 (joinPath D "pose-open.glb")).1
  have h6sc : (bodySt6 st0 D).scene = (bodyC2 st0).2.scene := rfl
  have h7ef : (bodySt7 st0 D).effects
      = (bodySt6 st0 D).effects
        ++ [Effect.exportGlb (joinPath D "pose-closed.glb")
              ((objectsOfColl (bodySt6 st0 D).scene (bodyC2 st0).1).map glbProj)] :=
    (export_glb_parts (bodySt6 st0 D) (bodyC2 st0).1 (joinPath D "pose-closed.glb")).1
  have h7sc : (bodySt7 st0 D).scene = (bodyC2 st0).2.scene := rfl
  rcases tryBody_cases fault st0 D with hok | ⟨m, h0 | h1 | h2 | h3 | h4 | h5 | h6c⟩
  · rw [hok, tryOut_ok]
    refine ⟨[{ cid := (bodyE3 st0).2.scene.nextId, name := "HumanLayer_" ++ "open",
               objectIds := dupsO.map (fun d => d.oid) },
             { cid := (bodyC1 st0).2.scene.nextId, name := "HumanLayer_" ++ "closed",
               objectIds := dupsC.map (fun d => d.oid) }],
            [Effect.exportGlb (joinPath D "pose-open.glb")
               ((objectsOfColl (bodyC2 st0).2.scene (bodyC1 st0).1).map glbProj),
             Effect.exportGlb (joinPath D "pose-closed.glb")
               ((objectsOfColl (bodySt6 st0 D).scene (bodyC2 st0).1).map glbProj)],
            ?_, ?_, ?_, ?_, ?_⟩
    · rw [h7sc]
      exact coC2
    · intro c hc
      rcases List.mem_cons.mp hc with hce | hc
      · rw [hce]
        exact ⟨hHLo, memO⟩
      · rw [List.mem_singleton.mp hc]
        exact ⟨hHLc, memC⟩
    · intro o ho
      rw [h7sc]
      exact keepC2 o ho
    · rw [h7ef, h6ef, efC2, List.append_assoc]
      rfl
    · intro e he
      rcases List.mem_cons.mp he with hce | he
      · exact ⟨_, Or.inl hce⟩
      · exact ⟨_, Or.inr (List.mem_singleton.mp he)⟩
  · rw [h0, tryOut_error]
    refine ⟨[], [], ?_, ?_, ?_, ?_, ?_⟩
    · rw [List.append_nil]
    · intro c hc
      exact absurd hc (List.not_mem_nil c)
    · intro o ho
      exact ho
    · rw [List.append_nil]
    · intro e he
      exact absurd he (List.not_mem_nil e)
  · rw [h1, tryOut_error]
    refine ⟨[], [], ?_, ?_, ?_, ?_, ?_⟩
    · rw [List.append_nil]
      exact coE1
    · intro c hc
      exact absurd hc (List.not_mem_nil c)
    · intro o ho
      exact keepE1 o ho
    · rw [List.append_nil]
      exact efE1
    · intro e he
      exact absurd he (List.not_mem_nil e)
  · rw [h2, tryOut_error]
    refine ⟨[], [], ?_, ?_, ?_, ?_, ?_⟩
    · rw [List.append_nil]
      exact coE2
    · intro c hc
      exact absurd hc (List.not_mem_nil c)
    · intro o ho
      exact keepE2 o ho
    · rw [List.append_nil]
      exact efE2
    · intro e he
      exact absurd he (List.not_mem_nil e)
  · rw [h3, tryOut_error]
    refine ⟨[], [], ?_, ?_, ?_, ?_, ?_⟩
    · rw [List.append_nil]
      exact coE3
    · intro c hc
      exact absurd hc (List.not_mem_nil c)
    · intro o ho
      exact keepE3 o ho
    · rw [List.append_nil]
      exact efE3
    · intro e he
      exact absurd he (List.not_mem_nil e)
  · rw [h4, tryOut_error]
    refine ⟨[{ cid := (bodyE3 st0).2.scene.nextId, name := "HumanLayer_" ++ "open",
               objectIds := dupsO.map (fun d => d.oid) }], [], ?_, ?_, ?_, ?_, ?_⟩
    · exact coC1
    · intro c hc
      rw [List.mem_singleton.mp hc]
      exact ⟨hHLo, memO⟩
    · intro o ho
      exact keepC1 o ho
    · rw [List.append_nil]
      exact efC1
    · intro e he
      exact absurd he (List.not_mem_nil e)
  · rw [h5, tryOut_error]
    refine ⟨[{ cid := (bodyE3 st0).2.scene.nextId, name := "HumanLayer_" ++ "open",
               objectIds := dupsO.map (fun d => d.oid) },
             { cid := (bodyC1 st0).2.scene.nextId, name := "HumanLayer_" ++ "closed",
               objectIds := dupsC.map (fun d => d.oid) }], [], ?_, ?_, ?_, ?_, ?_⟩
    · exact coC2
    · intro c hc
      rcases List.mem_cons.mp hc with hce | hc
      · rw [hce]
        exact ⟨hHLo, memO⟩
      · rw [List.mem_singleton.mp hc]
        exact ⟨hHLc, memC⟩
    · intro o ho
      exact keepC2 o ho
    · rw [List.append_nil]
      exact efC2
    · intro e he
      exact absurd he (List.not_mem_nil e)
  · rw [h6c, tryOut_error]
    refine ⟨[{ cid := (bodyE3 st0).2.scene.nextId, name := "HumanLayer_" ++ "open",
               objectIds := dupsO.map (fun d => d.oid) },
             { cid := (bodyC1 st0).2.scene.nextId, name := "HumanLayer_" ++ "closed",
               objectIds := dupsC.map (fun d => d.oid) }],
            [Effect.exportGlb (joinPath D "pose-open.glb")
               ((objectsOfColl (bodyC2 st0).2.scene (bodyC1 st0).1).map glbProj)],
            ?_, ?_, ?_, ?_, ?_⟩
    · rw [h6sc]
      exact coC2
    · intro c hc
      rcases List.mem_cons.mp hc with hce | hc
      · rw [hce]
        exact ⟨hHLo, memO⟩
      · rw [List.mem_singleton.mp hc]
        exact ⟨hHLc, memC⟩
    · intro o ho
      rw [h6sc]
      exact keepC2 o ho
    · rw [h6ef, efC2]
    · intro e he
      exact ⟨_, Or.inl (List.mem_singleton.mp he)⟩

/-! ### Argument parsing lemmas -/

theorem dropLast_pair {α : Type _} (x y : α) (l : List α) :
    (x :: y :: l).dropLast = x :: (y :: l).dropLast := rfl

theorem afterSep_append (l₁ l₂ : List String) (h : "--" ∉ l₁) :
    afterSep (l₁ ++ "--" :: l₂) = l₂ := by
  induction l₁ with
  | nil => simp [afterSep]
  | cons a t ih =>
    have ha : ¬(a = "--") := fun e => h (e ▸ List.mem_cons_self a t)
    rw [List.cons_append]
    show (if a = "--" then t ++ "--" :: l₂ else afterSep (t ++ "--" :: l₂)) = l₂
    rw [if_neg ha]
    exact ih (fun hm => h (List.mem_cons_of_mem a hm))

theorem parse_output_dir_stop (l : List String) :
    ∀ acc, "--output" ∉ l.dropLast → parse_output_dir l acc = acc := by
  induction l with
  | nil => intro acc _; rfl
  | cons a t ih =>
    intro acc hnot
    by_cases ha : a = "--output"
    · subst ha
      match t, hnot with
      | [], _ => rfl
      | v :: r, hnot =>
        exact absurd (by rw [dropLast_pair]; exact List.mem_cons_self _ _) hnot
    · have hstep : parse_output_dir (a :: t) acc = parse_output_dir t acc := by
        cases t with
        | nil => simp [parse_output_dir, ha]
        | cons b r => simp [parse_output_dir, ha]
      rw [hstep]
      refine ih acc ?_
      intro hm
      apply hnot
      match t, hm with
      | b :: r, hm =>
        rw [dropLast_pair]
        exact List.mem_cons_of_mem a hm

theorem parse_output_dir_last (m : List String) (v : String) (r : List String)
    (h : "--output" ∉ (v :: r).dropLast) :
    ∀ acc, parse_output_dir (m ++ "--output" :: v :: r) acc = v := by
  induction m with
  | nil =>
    intro acc
    have hstep : parse_output_dir ("--output" :: v :: r) acc
        = parse_output_dir (v :: r) v := rfl
    rw [List.nil_append, hstep]
    exact parse_output_dir_stop (v :: r) v h
  | cons a t ih =>
    intro acc
    rw [List.cons_append]
    by_cases ha : a = "--output"
    · subst ha
      cases hrest : t ++ "--output" :: v :: r with
      | nil => exact absurd hrest (by simp)
      | cons w ws =>
        have hstep : parse_output_dir ("--output" :: w :: ws) acc
            = parse_output_dir (w :: ws) w := rfl
        rw [hstep, ← hrest]
        exact ih w
    · have hstep : parse_output_dir (a :: (t ++ "--output" :: v :: r)) acc
          = parse_output_dir (t ++ "--output" :: v :: r) acc := by
        cases hrest : t ++ "--output" :: v :: r with
        | nil => exact absurd hrest (by simp)
        | cons w ws => simp [parse_output_dir, ha]
      rw [hstep]
      exact ih acc

theorem outputDirOf_last (l₁ m r : List String) (v : String)
    (h1 : "--" ∉ l₁) (h2 : "--output" ∉ (v :: r).dropLast) :
    outputDirOf (l₁ ++ "--" :: (m ++ "--output" :: v :: r)) = v := by
  unfold outputDirOf
  rw [afterSep_append _ _ h1]
  exact parse_output_dir_last m v r h2 _

/-! ### GLB payload lemmas -/

theorem glbPayload_names (ms : List (String × BObject)) :
    (glbPayload ms).map GlbObj.name = ms.map Prod.fst := by
  simp [glbPayload]

theorem glbPayload_types (ms : List (String × BObject)) :
    ∀ g ∈ glbPayload ms, g.objType = "MESH" := by
  intro g hg
  obtain ⟨kv, _, hk⟩ := List.mem_map.mp hg
  rw [← hk]


/-! ### Claim theorems -/

/-- C1: on a fault-free run, `main` exports exactly two GLB files,
`pose-open.glb` and `pose-closed.glb` inside the chosen output directory
(after creating it), and each carries exactly four MESH objects named
Body, Veins, Brain, Heart — one per key of MESH_PATTERNS. -/
theorem main_exports_two_poses (argv : List String) (scene0 : Scene)
    (h : IdsBelow scene0) :
    ∃ p1 p2 : List GlbObj,
      (mainRun none argv scene0).exitCode = 0 ∧
      (mainRun none argv scene0).st.effects
        = [Effect.mkdirP (outputDirOf argv),
           Effect.exportGlb (joinPath (outputDirOf argv) "pose-open.glb") p1,
           Effect.exportGlb (joinPath (outputDirOf argv) "pose-closed.glb") p2] ∧
      p1.map GlbObj.name = ["Body", "Veins", "Brain", "Heart"] ∧
      p2.map GlbObj.name = ["Body", "Veins", "Brain", "Heart"] ∧
      (∀ g ∈ p1, g.objType = "MESH") ∧ (∀ g ∈ p2, g.objType = "MESH") := by
  have hIds : IdsBelow (initSt argv scene0).scene := h
  obtain ⟨hef, hkeys⟩ := bodySt7_spec (initSt argv scene0) (outputDirOf argv) hIds
  have hpc : mainPreCleanup none argv scene0
      = (0, { bodySt7 (initSt argv scene0) (outputDirOf argv) with
              log := (bodySt7 (initSt argv scene0) (outputDirOf argv)).log
                     ++ [LogEntry.msg "INFO" "Export complete!"] }) := by
    unfold mainPreCleanup
    rw [tryBody_none_eq]
  refine ⟨glbPayload (bodyE3 (initSt argv scene0)).1,
          glbPayload (bodyE3 (initSt argv scene0)).1, ?_, ?_, ?_, ?_, ?_, ?_⟩
  · show (mainPreCleanup none argv scene0).1 = 0
    rw [hpc]
  · show (mainPreCleanup none argv scene0).2.effects = _
    rw [hpc]
    show (bodySt7 (initSt argv scene0) (outputDirOf argv)).effects = _
    rw [hef]
    rfl
  · rw [glbPayload_names]
    exact hkeys
  · rw [glbPayload_names]
    exact hkeys
  · exact glbPayload_types (bodyE3 (initSt argv scene0)).1
  · exact glbPayload_types (bodyE3 (initSt argv scene0)).1

/-- Closed instance of C1's theorem at the one-skin-mesh demo scene. -/
theorem main_exports_two_poses_witness :
    ∃ p1 p2 : List GlbObj,
      (mainRun none [] demoScene).exitCode = 0 ∧
      (mainRun none [] demoScene).st.effects
        = [Effect.mkdirP (outputDirOf []),
           Effect.exportGlb (joinPath (outputDirOf []) "pose-open.glb") p1,
           Effect.exportGlb (joinPath (outputDirOf []) "pose-closed.glb") p2] ∧
      p1.map GlbObj.name = ["Body", "Veins", "Brain", "Heart"] ∧
      p2.map GlbObj.name = ["Body", "Veins", "Brain", "Heart"] ∧
      (∀ g ∈ p1, g.objType = "MESH") ∧ (∀ g ∈ p2, g.objType = "MESH") :=
  main_exports_two_poses [] demoScene (by decide)

/-- C2: refuted. POSE_TRANSFORMS does define two distinct poses, but
`create_pose_collection` never applies them (the source reads
"simplified - no armature" and only duplicates the meshes), so on every
well-formed scene the run writes the SAME payload to `pose-open.glb` and
`pose-closed.glb`: the two files never hold differently positioned
meshes. -/
theorem pose_payloads_identical (argv : List String) (scene0 : Scene)
    (h : IdsBelow scene0) :
    POSE_TRANSFORMS.lookup "open" ≠ POSE_TRANSFORMS.lookup "closed" ∧
    ∃ payload : List GlbObj,
      (mainRun none argv scene0).st.effects
        = [Effect.mkdirP (outputDirOf argv),
           Effect.exportGlb (joinPath (outputDirOf argv) "pose-open.glb") payload,
           Effect.exportGlb (joinPath (outputDirOf argv) "pose-closed.glb") payload] := by
  have hIds : IdsBelow (initSt argv scene0).scene := h
  obtain ⟨hef, hkeys⟩ := bodySt7_spec (initSt argv scene0) (outputDirOf argv) hIds
  have hpc : mainPreCleanup none argv scene0
      = (0, { bodySt7 (initSt argv scene0) (outputDirOf argv) with
              log := (bodySt7 (initSt argv scene0) (outputDirOf argv)).log
                     ++ [LogEntry.msg "INFO" "Export complete!"] }) := by
    unfold mainPreCleanup
    rw [tryBody_none_eq]
  refine ⟨by decide, glbPayload (bodyE3 (initSt argv scene0)).1, ?_⟩
  show (mainPreCleanup none argv scene0).2.effects = _
  rw [hpc]
  show (bodySt7 (initSt argv scene0) (outputDirOf argv)).effects = _
  rw [hef]
  rfl

/-- Closed instance of C2's theorem at the demo scene: both exports carry
one identical payload although the two pose tables differ. -/
theorem pose_payloads_identical_witness :
    POSE_TRANSFORMS.lookup "open" ≠ POSE_TRANSFORMS.lookup "closed" ∧
    ∃ payload : List GlbObj,
      (mainRun none [] demoScene).st.effects
        = [Effect.mkdirP (outputDirOf []),
           Effect.exportGlb (joinPath (outputDirOf []) "pose-open.glb") payload,
           Effect.exportGlb (joinPath (outputDirOf []) "pose-closed.glb") payload] :=
  pose_payloads_identical [] demoScene (by decide)

/-- C3: `main`'s single try/except boundary — an exception anywhere in
the body is logged with its message and its stack trace and the process
exits 1 (`sys.exit(1)`); a clean body exits 0. -/
theorem main_error_boundary (fault : Option (Nat × String)) (argv : List String)
    (scene0 : Scene) :
    (∀ e stE, tryBody fault (initSt argv scene0) (outputDirOf argv)
        = Except.error (e, stE) →
      (mainRun fault argv scene0).exitCode = 1 ∧
      LogEntry.msg "ERROR" ("Error: " ++ e) ∈ (mainRun fault argv scene0).st.log ∧
      LogEntry.traceback e ∈ (mainRun fault argv scene0).st.log) ∧
    (∀ stOk, tryBody fault (initSt argv scene0) (outputDirOf argv) = Except.ok stOk →
      (mainRun fault argv scene0).exitCode = 0) := by
  constructor
  · intro e stE htb
    have hpc : mainPreCleanup fault argv scene0
        = (1, { stE with log := stE.log
            ++ [LogEntry.msg "ERROR" ("Error: " ++ e), LogEntry.traceback e] }) := by
      unfold mainPreCleanup
      rw [htb]
    refine ⟨?_, ?_, ?_⟩
    · show (mainPreCleanup fault argv scene0).1 = 1
      rw [hpc]
    · show LogEntry.msg "ERROR" ("Error: " ++ e)
          ∈ (mainPreCleanup fault argv scene0).2.log
      rw [hpc]
      show LogEntry.msg "ERROR" ("Error: " ++ e) ∈ stE.log
        ++ [LogEntry.msg "ERROR" ("Error: " ++ e), LogEntry.traceback e]
      simp
    · show LogEntry.traceback e ∈ (mainPreCleanup fault argv scene0).2.log
      rw [hpc]
      show LogEntry.traceback e ∈ stE.log
        ++ [LogEntry.msg "ERROR" ("Error: " ++ e), LogEntry.traceback e]
      simp
  · intro stOk htb
    have hpc : mainPreCleanup fault argv scene0
        = (0, { stOk with
                log := stOk.log ++ [LogEntry.msg "INFO" "Export complete!"] }) := by
      unfold mainPreCleanup
      rw [htb]
    show (mainPreCleanup fault argv scene0).1 = 0
    rw [hpc]

/-- Closed instance of C3's theorem: a fault injected at the centering
statement exits 1 and logs the message and the traceback. -/
theorem main_error_boundary_witness :
    (mainRun (some (2, "boom")) [] demoScene).exitCode = 1 ∧
    LogEntry.msg "ERROR" ("Error: " ++ "boom")
      ∈ (mainRun (some (2, "boom")) [] demoScene).st.log ∧
    LogEntry.traceback "boom" ∈ (mainRun (some (2, "boom")) [] demoScene).st.log :=
  (main_error_boundary (some (2, "boom")) [] demoScene).1 "boom"
    (bodyE2 (initSt [] demoScene)).2 rfl

/-- C7: when `sys.argv` holds the `--` separator and, after it,
`--output` with a value, `main` uses the last such value as the output
directory: it creates that directory first and every export goes to the
two pose files inside it. -/
theorem main_output_dir (l₁ m r : List String) (v : String)
    (fault : Option (Nat × String)) (scene0 : Scene)
    (h1 : "--" ∉ l₁) (h2 : "--output" ∉ (v :: r).dropLast)
    (h : IdsBelow scene0) :
    outputDirOf (l₁ ++ "--" :: (m ++ "--output" :: v :: r)) = v ∧
    ∃ tail,
      (mainRun fault (l₁ ++ "--" :: (m ++ "--output" :: v :: r)) scene0).st.effects
        = Effect.mkdirP v :: tail ∧
      ∀ e ∈ tail, ∃ objs,
        e = Effect.exportGlb (joinPath v "pose-open.glb") objs ∨
        e = Effect.exportGlb (joinPath v "pose-closed.glb") objs := by
  have hout := outputDirOf_last l₁ m r v h1 h2
  obtain ⟨extra, tail, hco, hex, hob, hef, htl⟩ :=
    tryOut_spec fault (initSt (l₁ ++ "--" :: (m ++ "--output" :: v :: r)) scene0)
      (outputDirOf (l₁ ++ "--" :: (m ++ "--output" :: v :: r))) h
  refine ⟨hout, tail, ?_, ?_⟩
  · rw [(mainRun_parts fault (l₁ ++ "--" :: (m ++ "--output" :: v :: r)) scene0).2.2.1,
        (mainPreCleanup_scene fault (l₁ ++ "--" :: (m ++ "--output" :: v :: r))
          scene0).2,
        hef]
    show Effect.mkdirP
        (outputDirOf (l₁ ++ "--" :: (m ++ "--output" :: v :: r))) :: tail = _
    rw [hout]
  · intro e he
    obtain ⟨objs, ho⟩ := htl e he
    rw [hout] at ho
    exact ⟨objs, ho⟩

/-- Closed instance of C7's theorem at `["x", "--", "--output", "out"]`. -/
theorem main_output_dir_witness :
    outputDirOf (["x"] ++ "--" :: ([] ++ "--output" :: "out" :: [])) = "out" ∧
    ∃ tail,
      (mainRun none (["x"] ++ "--" :: ([] ++ "--output" :: "out" :: []))
          demoScene).st.effects
        = Effect.mkdirP "out" :: tail ∧
      ∀ e ∈ tail, ∃ objs,
        e = Effect.exportGlb (joinPath "out" "pose-open.glb") objs ∨
        e = Effect.exportGlb (joinPath "out" "pose-closed.glb") objs :=
  main_output_dir ["x"] [] [] "out" none demoScene (by decide) (by decide) (by decide)

/-- C8 (amended): a pre-existing object survives a whole run — whatever
the fault — PROVIDED no pre-existing collection already carries the
`HumanLayer_` name prefix.  The claim as stated (cleanup only touches
collections the script itself created) is false: `cleanup_scene` removes
every collection whose name starts with `HumanLayer_`, including
pre-existing ones and their member objects (see the counterexample). -/
theorem preexisting_objects_survive (fault : Option (Nat × String))
    (argv : List String) (scene0 : Scene) (h : IdsBelow scene0)
    (hcl : ∀ c ∈ scene0.collections, nameStarts "HumanLayer_" c.name = false) :
    ∀ o ∈ scene0.objects, o ∈ (mainRun fault argv scene0).st.scene.objects := by
  intro o ho
  obtain ⟨extra, tail, hco, hex, hob, hef, htl⟩ :=
    tryOut_spec fault (initSt argv scene0) (outputDirOf argv) h
  rw [(mainRun_parts fault argv scene0).2.1,
      (mainPreCleanup_scene fault argv scene0).1]
  refine cleanupFold_keeps scene0.nextId
    (tryOut (tryBody fault (initSt argv scene0) (outputDirOf argv))).scene.collections
    (tryOut (tryBody fault (initSt argv scene0) (outputDirOf argv))).scene
    ?_ o (hob o ho) (h.1 o ho)
  intro c hc
  rw [hco] at hc
  rcases List.mem_append.mp hc with hc | hc
  · exact Or.inl (hcl c hc)
  · exact Or.inr (fun i hi => (hex c hc).2 i hi)

/-- Closed instance of C8's amended theorem: the demo skin mesh survives
a fault-free run on the demo scene (no pre-existing HumanLayer_
collection there). -/
theorem preexisting_objects_survive_witness :
    demoSkin ∈ (mainRun none [] demoScene).st.scene.objects :=
  preexisting_objects_survive none [] demoScene (by decide) (by decide)
    demoSkin (by simp [demoScene])

/-- C8 counterexample: on a scene that already holds a collection named
`HumanLayer_old` containing the pre-existing object with handle 1, a
fault-free run REMOVES that pre-existing object — `cleanup_scene`
matches the name prefix, not provenance. -/
theorem preexisting_object_removed :
    (∃ o ∈ preHLScene.objects, o.oid = 1) ∧
    (∀ o ∈ (mainRun none [] preHLScene).st.scene.objects, o.oid ≠ 1) := by decide

/-- C10: `mainRun` always ends through the `finally:` cleanup — its final
scene is `cleanup_scene` of the pre-cleanup scene, on the success and on
the failure path alike — so afterwards no collection whose name starts
with `HumanLayer_` remains, and no object that was linked inside such a
collection remains either. -/
theorem cleanup_always_runs (fault : Option (Nat × String)) (argv : List String)
    (scene0 : Scene) :
    (mainRun fault argv scene0).st.scene
      = cleanup_scene (mainPreCleanup fault argv scene0).2.scene ∧
    (∀ c ∈ (mainRun fault argv scene0).st.scene.collections,
      nameStarts "HumanLayer_" c.name = false) ∧
    (∀ c ∈ (mainPreCleanup fault argv scene0).2.scene.collections,
      nameStarts "HumanLayer_" c.name = true →
      ∀ i ∈ c.objectIds, ∀ o ∈ (mainRun fault argv scene0).st.scene.objects,
        o.oid ≠ i) := by
  refine ⟨(mainRun_parts fault argv scene0).2.1, ?_, ?_⟩
  · intro c hc
    rw [(mainRun_parts fault argv scene0).2.1] at hc
    exact cleanup_no_HL (mainPreCleanup fault argv scene0).2.scene c hc
  · intro c hc hn i hi o ho hoi
    rw [(mainRun_parts fault argv scene0).2.1] at ho
    have hk := cleanupFold_kills (mainPreCleanup fault argv scene0).2.scene.collections
      (mainPreCleanup fault argv scene0).2.scene c hc hn o ho
    rw [hoi] at hk
    exact hk hi

end ExtractAnatomy
